import Mathlib

/-!
Shallow embedding of the memflow-win32 kernel bootstrap core.

The definitions below are translated from the Rust sources of the
repository (memflow-win32 and memflow-win32-defs crates): the
per-architecture start-block (DTB) scanners, the ntoskrnl locator, the
kernel version / GUID identification, the symbol-store client and the
PDB offset resolver.  Machine integers are modelled as `Nat` with
explicit `% 2 ^ 64` where 64-bit wrap-around matters; fallible Rust
functions returning `Result` are modelled with `Except`.
-/

set_option linter.unusedVariables false
set_option maxRecDepth 4000

namespace MemflowWin32

/-- Error kinds used by the embedded code paths
(subset of memflow's `ErrorKind`). -/
inductive ErrKind where
  | notFound
  | invalidExeFile
  | offset
  | http
  | encoding
  | exportNotFound
  | processNotFound
  | unableToReadFile
  | unableToCreateDirectory
  | unableToWriteFile
  deriving DecidableEq, Repr

/-- A memflow error: its kind together with the `log_*` diagnostic string
attached at the error site. -/
structure Win32Error where
  kind : ErrKind
  msg : String
  deriving DecidableEq, Repr

/-- The four architectures handled by the start-block scanners. -/
inductive Arch where
  | x86
  | x86pae
  | x64
  | aarch64
  deriving DecidableEq, Repr

/-- `StartBlock { arch, kernel_hint, dtb }`; addresses are `Nat`,
`Address::NULL` is `0`. -/
structure StartBlock where
  arch : Arch
  kernel_hint : Nat
  dtb : Nat
  deriving DecidableEq, Repr

/-- Little-endian combination of a byte list into an integer
(`u64::from_le_bytes` when given 8 bytes). -/
def leU64 (bs : List Nat) : Nat :=
  bs.foldr (fun b acc => b + 256 * acc) 0

/-- Fuel-driven worker for `exactChunks` (structural recursion so that
it reduces definitionally on concrete inputs). -/
def exactChunksAux (fuel n : Nat) (l : List α) : List (List α) :=
  match fuel with
  | 0 => []
  | fuel + 1 =>
    if 0 < n ∧ n ≤ l.length then
      l.take n :: exactChunksAux fuel n (l.drop n)
    else []

/-- Rust's `slice::chunks_exact(n)`: split into chunks of exactly `n`
elements, dropping a shorter remainder. -/
def exactChunks (n : Nat) (l : List α) : List (List α) :=
  exactChunksAux l.length n l

/-- Fuel-driven worker for `chunksPad`. -/
def chunksPadAux (fuel n : Nat) (l : List α) : List (List α) :=
  match fuel with
  | 0 => []
  | fuel + 1 =>
    if 0 < n ∧ 0 < l.length then
      l.take n :: chunksPadAux fuel n (l.drop n)
    else []

/-- memflow's `PageChunks::page_chunks` starting at address `NULL`:
split into chunks of `n` elements, keeping a shorter final remainder. -/
def chunksPad (n : Nat) (l : List α) : List (List α) :=
  chunksPadAux l.length n l

/-! ## `kernel/start_block/x86pae.rs` -/

namespace X86PAE

/-- `x86pae::check_page`: the page at physical address `addr` qualifies
iff qword `i` equals `addr + ((i*8) << 9) + 0x1001` (as `u64`) for
`i < 4` and equals `0` for `i ≥ 4`. -/
def check_page (addr : Nat) (mem : List Nat) : Bool :=
  (exactChunks 8 mem).enum.all fun p =>
    let qword := leU64 p.2
    if p.1 < 4 then
      qword == (addr + ((p.1 * 8) <<< 9) + 0x1001) % 2 ^ 64
    else
      qword == 0

/-- The little-endian qwords of a page, in order (`chunks_exact(8)`
followed by `u64::from_le_bytes`). -/
def qwords (page : List Nat) : List Nat :=
  (exactChunks 8 page).map leU64

/-- `x86pae::find`: scan the buffer page by page (4 KiB page chunks
based at address `NULL`) and return a start block for the first page
accepted by `check_page`. -/
def find (mem : List Nat) : Except Win32Error StartBlock :=
  match (chunksPad 0x1000 mem).enum.find? (fun p => check_page (0x1000 * p.1) p.2) with
  | some p => .ok ⟨.x86pae, 0, 0x1000 * p.1⟩
  | none => .error ⟨.notFound, "unable to find x86_pae dtb in lowstub < 16M"⟩

end X86PAE

/-! ## `kernel/start_block/aarch64.rs` -/

namespace AArch64

/-- `aarch64::PHYS_BASE = mem::gb(1)`. -/
def PHYS_BASE : Nat := 0x40000000

/-- `max_mem = mem::gb(512)` inside `find_pt`. -/
def maxMem : Nat := 0x8000000000

/-- The qwords of the upper half (bytes `0x800..`) of a page. -/
def upperHalf (mem : List Nat) : List Nat :=
  (exactChunks 8 (mem.drop 0x800)).map leU64

/-- `aarch64::find_pt`: accept a 4 KiB page at address `addr` as a
candidate page table.  Mirrors the source: early reject unless the
first PTE has low 12 bits `0xf03` and its masked frame is not above
512 GiB; then require a self-referencing entry in the upper half
(mask `!0u64 >> 12`), then require a sixth entry with low 12 bits
`0x703`. -/
def find_pt (addr : Nat) (mem : List Nat) : Option Nat :=
  let pte := leU64 (mem.take 8)
  if (pte &&& 0xfff) ≠ 0xf03 ∨ (pte &&& 0x0000FFFFFFFFF000) > maxMem then
    none
  else
    match (upperHalf mem).find? fun a => (a ^^^ 0xf03) &&& ((2 ^ 64 - 1) >>> 12) == addr with
    | none => none
    | some _ =>
      match ((upperHalf mem).filter fun a => (a &&& 0xfff) == 0x703)[5]? with
      | none => none
      | some _ => some addr

/-- `aarch64::find`: scan the buffer in exact 4 KiB chunks; the chunk
with index `i` sits at physical address `PHYS_BASE + i * page_size`;
return the first accepted candidate as the DTB. -/
def find (mem : List Nat) : Except Win32Error StartBlock :=
  match ((exactChunks 0x1000 mem).enum.filterMap
      (fun p => find_pt (PHYS_BASE + p.1 * 0x1000) p.2)).head? with
  | some addr => .ok ⟨.aarch64, 0, addr⟩
  | none => .error ⟨.notFound, "unable to find aarch64 dtb in lowstub < 16M"⟩

/-- The acceptance condition actually implemented by `find_pt`,
stated declaratively: note the frame bound is non-strict (`≤ 512 GiB`)
and the self-reference mask keeps the *low* 52 bits (`!0u64 >> 12`). -/
def qualifies (addr : Nat) (mem : List Nat) : Prop :=
  (leU64 (mem.take 8) &&& 0xfff) = 0xf03 ∧
  (leU64 (mem.take 8) &&& 0x0000FFFFFFFFF000) ≤ maxMem ∧
  (∃ e ∈ upperHalf mem, (e ^^^ 0xf03) &&& ((2 ^ 64 - 1) >>> 12) = addr) ∧
  6 ≤ ((upperHalf mem).filter fun a => (a &&& 0xfff) == 0x703).length

instance (addr : Nat) (mem : List Nat) : Decidable (qualifies addr mem) := by
  unfold qualifies; infer_instance

/-- The acceptance condition as worded by the specification claim:
frame strictly below 512 GiB, and self-reference mask `~0xFFF`
(keeping the *high* bits). -/
def claimQualifies (addr : Nat) (mem : List Nat) : Prop :=
  (leU64 (mem.take 8) &&& 0xfff) = 0xf03 ∧
  (leU64 (mem.take 8) &&& 0x0000FFFFFFFFF000) < maxMem ∧
  (∃ e ∈ upperHalf mem, (e ^^^ 0xf03) &&& (2 ^ 64 - 0x1000) = addr) ∧
  6 ≤ ((upperHalf mem).filter fun a => (a &&& 0xfff) == 0x703).length

instance (addr : Nat) (mem : List Nat) : Decidable (claimQualifies addr mem) := by
  unfold claimQualifies; infer_instance

/-- Bytes of the upper-half entry `0x40000103` (self-referential for the
claim's `~0xFFF` mask at page address `0x40000000`, but not for the
code's low-52-bit mask). -/
def selfRefClaimBytes : List Nat := [0x03, 0x01, 0x00, 0x40, 0, 0, 0, 0]

/-- Bytes of the upper-half entry `0x40000F03` (self-referential for the
code's mask at page address `0x40000000`). -/
def selfRefCodeBytes : List Nat := [0x03, 0x0F, 0x00, 0x40, 0, 0, 0, 0]

/-- Bytes of a kernel-mapping entry `0x703`. -/
def entry703Bytes : List Nat := [0x03, 0x07, 0, 0, 0, 0, 0, 0]

/-- Lower half of the first test page: first PTE `0xF03`, rest zero. -/
def cexLowA : List Nat := [0x03, 0x0F, 0, 0, 0, 0, 0, 0] ++ List.replicate 2040 0

/-- Lower half of the second test page: first PTE `0x8000000000F03`
(masked frame exactly 512 GiB), rest zero. -/
def cexLowB : List Nat := [0x03, 0x0F, 0, 0, 0x80, 0, 0, 0] ++ List.replicate 2040 0

/-- Upper half of the first test page: the claim-style self-reference
entry, six `0x703` entries, zeros. -/
def cexHighA : List Nat :=
  selfRefClaimBytes ++ (entry703Bytes ++ (entry703Bytes ++ (entry703Bytes ++
    (entry703Bytes ++ (entry703Bytes ++ (entry703Bytes ++ List.replicate 1992 0))))))

/-- Upper half of the second test page: the code-style self-reference
entry, six `0x703` entries, zeros. -/
def cexHighB : List Nat :=
  selfRefCodeBytes ++ (entry703Bytes ++ (entry703Bytes ++ (entry703Bytes ++
    (entry703Bytes ++ (entry703Bytes ++ (entry703Bytes ++ List.replicate 1992 0))))))

/-- A 4 KiB page satisfying the specification's acceptance conditions
but rejected by `find_pt`. -/
def cexPageA : List Nat := cexLowA ++ cexHighA

/-- A 4 KiB page accepted by `find_pt` but failing the specification's
strict 512 GiB frame bound. -/
def cexPageB : List Nat := cexLowB ++ cexHighB

end AArch64

/-! ## Shared kernel-identification data -/

/-- `Win32Version { nt_major_version, nt_minor_version, nt_build_number }`. -/
structure Win32Version where
  major : Nat
  minor : Nat
  build : Nat
  deriving DecidableEq, Repr

/-- `Win32Guid { file_name, guid }`. -/
structure Win32Guid where
  file_name : String
  guid : String
  deriving DecidableEq, Repr

/-! ## `kernel/ntos.rs` : exports, version and GUID extraction -/

namespace Ntos

/-- Outcome of pelite's `get_export_by_name`. -/
inductive ExportRes where
  | symbol (rva : Nat)
  | forwarded
  | absent
  deriving DecidableEq, Repr

/-- `ntos::get_export`: resolve a named export; a missing export or a
forwarded export is an `ExportNotFound` error. -/
def get_export (exports : String → ExportRes) (name : String) : Except Win32Error Nat :=
  match exports name with
  | .symbol s => .ok s
  | .forwarded =>
    .error ⟨.exportNotFound, "Export found but it was a forwarded export"⟩
  | .absent => .error ⟨.exportNotFound, "unable to find export"⟩

/-- Little-endian `u32` at offset `i` of a byte buffer
(`u32::from_le_bytes(buf[i..i+4])`). -/
def leU32At (buf : Nat → Nat) (i : Nat) : Nat :=
  buf i + 256 * buf (i + 1) + 65536 * buf (i + 2) + 16777216 * buf (i + 3)

/-- Little-endian `u16` at offset `i` of a byte buffer. -/
def leU16At (buf : Nat → Nat) (i : Nat) : Nat :=
  buf i + 256 * buf (i + 1)

/-- One iteration of the RtlGetVersion disassembly loop of
`find_winver`: the three match predicates applied in order to the
state `(nt_major_version, nt_minor_version)` at scan index `i`. -/
def winverStep (buf : Nat → Nat) (s : Nat × Nat) (i : Nat) : Nat × Nat :=
  let s1 :=
    if s.1 = 0 ∧ s.2 = 0 ∧ leU32At buf i = 0x441c748 then
      (leU16At buf (i + 4), buf (i + 5) &&& 0xF)
    else s
  let s2 :=
    if s1.1 = 0 ∧ leU32At buf i &&& 0xFFFFF = 0x441c7 then
      (buf (i + 3), s1.2)
    else s1
  if s2.2 = 0 ∧ leU32At buf i &&& 0xFFFFF = 0x841c7 then
    (buf (i + 3), s2.2)
  else s2

/-- The full `for i in 0..0xf0` scan of `find_winver`'s x64 fallback,
starting from the state `(0, 0)` the code resets to. -/
def winverScan (buf : Nat → Nat) : Nat × Nat :=
  (List.range 0xf0).foldl (winverStep buf) (0, 0)

/-- The fallback scan step as the specification words it: three match
predicates applied in order; the first fires only while major and
minor are both still 0, the second only while major is still 0, and
the third - gated on minor still being 0 - writes to *major*
(retained verbatim from the source). -/
def winverStepSpec (buf : Nat → Nat) (s : Nat × Nat) (i : Nat) : Nat × Nat :=
  let s1 :=
    if s.1 = 0 ∧ s.2 = 0 ∧ leU32At buf i = 0x0441C748 then
      (leU16At buf (i + 4), buf (i + 5) &&& 0xF)
    else s
  let s2 :=
    if s1.1 = 0 ∧ leU32At buf i &&& 0xFFFFF = 0x441C7 then
      (buf (i + 3), s1.2)
    else s1
  if s2.2 = 0 ∧ leU32At buf i &&& 0xFFFFF = 0x841C7 then
    (buf (i + 3), s2.2)
  else s2

/-- The specification's reading of the whole fallback scan. -/
def winverScanSpec (buf : Nat → Nat) : Nat × Nat :=
  (List.range 0xf0).foldl (winverStepSpec buf) (0, 0)

/-- A 0x100-byte `RtlGetVersion` body holding only the bytes
`C7 41 08 06` at offset 0, so that the only matching predicate is the
third one (`u32 & 0xFFFFF == 0x841C7`). -/
def buf841 : Nat → Nat := fun i =>
  if i = 0 then 0xC7 else if i = 1 then 0x41 else
    if i = 2 then 0x08 else if i = 3 then 6 else 0

/-- Environment of `find_winver`: the PE image parse outcome, the
export table, `u32` virtual-memory reads, and the 0x100-byte read of
`RtlGetVersion`'s body (modelled as a byte function). -/
structure WinverEnv where
  image : Except Win32Error Unit
  exports : String → ExportRes
  read32 : Nat → Except Win32Error Nat
  readBuf : Nat → Except Win32Error (Nat → Nat)

/-- A concrete environment for exercising the fallback: NtBuildNumber
at RVA 1 reading 7601, KUSER major 0 and minor 1, RtlGetVersion at
RVA 2 with body `buf841`. -/
def cexEnv : WinverEnv where
  image := .ok ()
  exports := fun n =>
    if n = "NtBuildNumber" then .symbol 1
    else if n = "RtlGetVersion" then .symbol 2
    else .absent
  read32 := fun a =>
    if a = 0 + 1 then .ok 7601
    else if a = 0x7ffe0000 + 0x026C then .ok 0
    else if a = 0x7ffe0000 + 0x0270 then .ok 1
    else .ok 0
  readBuf := fun _ => .ok buf841

/-- An environment whose every export resolves to a forwarded export. -/
def cexEnvForwarded : WinverEnv where
  image := .ok ()
  exports := fun _ => .forwarded
  read32 := fun _ => .ok 0
  readBuf := fun _ => .ok (fun _ => 0)

/-- An environment where `NtBuildNumber` resolves but `RtlGetVersion`
is absent; KUSER_SHARED_DATA reads give major 6, minor 1, and the
build number read gives 7601. -/
def cexEnvNoRtl : WinverEnv where
  image := .ok ()
  exports := fun n => if n = "NtBuildNumber" then .symbol 1 else .absent
  read32 := fun a =>
    if a = 0x7ffe0000 + 0x026C then .ok 6
    else if a = 0x7ffe0000 + 0x0270 then .ok 1
    else .ok 7601
  readBuf := fun _ => .ok (fun _ => 0)

/-- `ntos::find_winver`, returning the result together with the trace
of `u32` read addresses issued, in program order. -/
def find_winver (env : WinverEnv) (kernel_base : Nat) :
    Except Win32Error Win32Version × List Nat :=
  match env.image with
  | .error e => (.error e, [])
  | .ok () =>
    match get_export env.exports "NtBuildNumber" with
    | .error e => (.error e, [])
    | .ok ntRva =>
      let rtl := get_export env.exports "RtlGetVersion"
      match env.read32 (kernel_base + ntRva) with
      | .error e => (.error e, [kernel_base + ntRva])
      | .ok ntBuildNumber =>
        if ntBuildNumber = 0 then
          (.error ⟨.invalidExeFile, "unable to fetch nt build number"⟩,
            [kernel_base + ntRva])
        else
          match env.read32 (0x7ffe0000 + 0x026C) with
          | .error e => (.error e, [kernel_base + ntRva, 0x7ffe0000 + 0x026C])
          | .ok major0 =>
            match env.read32 (0x7ffe0000 + 0x0270) with
            | .error e =>
              (.error e,
                [kernel_base + ntRva, 0x7ffe0000 + 0x026C, 0x7ffe0000 + 0x0270])
            | .ok minor0 =>
              let trace :=
                [kernel_base + ntRva, 0x7ffe0000 + 0x026C, 0x7ffe0000 + 0x0270]
              match rtl with
              | .ok rtlRva =>
                if major0 = 0 then
                  match env.readBuf (kernel_base + rtlRva) with
                  | .error e => (.error e, trace)
                  | .ok buf =>
                    let s := winverScan buf
                    (.ok ⟨s.1, s.2, ntBuildNumber⟩, trace)
                else (.ok ⟨major0, minor0, ntBuildNumber⟩, trace)
              | .error _ => (.ok ⟨major0, minor0, ntBuildNumber⟩, trace)

end Ntos

/-! ## `kernel/ntos.rs` : `find_guid` and the GUID string form -/

namespace Guid

/-- A PDB 7.0 signature: pelite's `GUID { Data1, Data2, Data3, Data4 }`. -/
structure MsGuid where
  data1 : Nat
  data2 : Nat
  data3 : Nat
  data4 : List Nat
  deriving DecidableEq, Repr

/-- Uppercase hex digit for a value below 16. -/
def hexDigitChar (n : Nat) : Char :=
  if n < 10 then Char.ofNat (48 + n) else Char.ofNat (55 + n)

/-- Hex digits of `n`, most significant first; empty for `0`
(fuel-driven so it reduces on concrete inputs; 32 digits cover
every value used here). -/
def hexCharsAux : Nat → Nat → List Char
  | 0, _ => []
  | fuel + 1, n =>
    if n = 0 then [] else hexCharsAux fuel (n / 16) ++ [hexDigitChar (n % 16)]

/-- Rust's `{:X}` formatting of an unsigned integer. -/
def fmtUpperHex (n : Nat) : List Char :=
  if n = 0 then ['0'] else hexCharsAux 32 n

/-- Rust's `{:0wX}` formatting: zero-pad `{:X}` to width `w`. -/
def fmtUpperHexPad (w n : Nat) : List Char :=
  List.replicate (w - (fmtUpperHex n).length) '0' ++ fmtUpperHex n

/-- pelite's `UpperHex` rendering of a `GUID`: `Data1` through `Data4`
as contiguous zero-padded uppercase hex (the symbol-server form,
with no separators). -/
def guidUpperHex (g : MsGuid) : List Char :=
  fmtUpperHexPad 8 g.data1 ++ fmtUpperHexPad 4 g.data2 ++
    fmtUpperHexPad 4 g.data3 ++ (g.data4.map (fmtUpperHexPad 2)).flatten

/-- A character is an uppercase hexadecimal digit (`0`-`9` or `A`-`F`):
exactly the alphabet of the GUID string, with no separators. -/
def isUpperHexDigit (c : Char) : Prop :=
  ('0' ≤ c ∧ c ≤ '9') ∨ ('A' ≤ c ∧ c ≤ 'F')

instance (c : Char) : Decidable (isUpperHexDigit c) := by
  unfold isUpperHexDigit; infer_instance

/-- A concrete PDB 7.0 signature (the Win32Offsets test GUID). -/
def cexSig : MsGuid where
  data1 := 0x3844DBB9
  data2 := 0x2017
  data3 := 0x4967
  data4 := [0xBE, 0x7A, 0xA4, 0xA2, 0xC2, 0x04, 0x30, 0xFA]

/-- A debug directory entry as seen by `find_guid`'s iterator chain:
reading the entry may fail, and an entry may or may not be a
CodeView record. -/
inductive DebugEntry where
  | errEntry
  | notCodeView
  | cv70 (sig : MsGuid) (age : Nat)
  | cv20
  deriving DecidableEq, Repr

/-- Environment of `find_guid`: PE image parse outcome, the debug
directory, and the `to_str` outcome for the PDB file name
(`none` models a non-UTF8 name). -/
structure FindGuidEnv where
  image : Except Win32Error Unit
  debug : Except Unit (List DebugEntry)
  pdbFileName : Option String

/-- A concrete `find_guid` environment with a single Cv70 entry. -/
def cexGuidEnv : FindGuidEnv where
  image := .ok ()
  debug := .ok [.cv70 cexSig 2]
  pdbFileName := some "ntkrnlmp.pdb"

/-- The CodeView selector of `find_guid`'s iterator chain: keep
entries that read successfully and are CodeView records. -/
def asCodeView (e : DebugEntry) : Option DebugEntry :=
  match e with
  | .cv70 sig age => some (.cv70 sig age)
  | .cv20 => some .cv20
  | _ => none

/-- `ntos::find_guid`: take the first CodeView entry of the debug
directory; only `Cv70` is accepted, and the GUID string is
`format!("{:X}{:X}", signature, age)`. -/
def find_guid (env : FindGuidEnv) : Except Win32Error Win32Guid :=
  match env.image with
  | .error e => .error e
  | .ok () =>
    match env.debug with
    | .error _ => .error ⟨.invalidExeFile, "unable to read debug_data in pe header"⟩
    | .ok entries =>
      match (entries.filterMap asCodeView).head? with
      | none => .error ⟨.invalidExeFile, "unable to find codeview debug_data entry"⟩
      | some (.cv20) =>
        .error ⟨.invalidExeFile, "invalid code_view entry version 2 found, expected 7"⟩
      | some (.cv70 sig age) =>
        match env.pdbFileName with
        | none => .error ⟨.encoding, "unable to convert pdb file name to string"⟩
        | some fname => .ok ⟨fname, String.mk (guidUpperHex sig ++ fmtUpperHex age)⟩
      | some _ => .error ⟨.invalidExeFile, "unable to find codeview debug_data entry"⟩

end Guid

/-! ## `offsets/symstore.rs` : the symbol store client -/

namespace SymStore

/-- An HTTP response: the `Content-Length` header (`none` = absent,
`some none` = present but unparsable) and the body read outcome. -/
structure HttpResponse where
  contentLength : Option (Option Nat)
  body : Except Unit (List Nat)

/-- Outcome of a Rust function that can also abort through a failed
`assert!` / `assert_eq!` (or an `unwrap` of `None`): `panicked`. -/
inductive DlResult where
  | ok (bytes : List Nat)
  | err (e : Win32Error)
  | panicked
  deriving DecidableEq, Repr

/-- `SymbolStore { base_url, cache_path }`. -/
structure SymbolStore where
  base_url : String
  cache_path : Option String
  deriving DecidableEq, Repr

/-- `SymbolStore::no_cache`. -/
def no_cache (s : SymbolStore) : SymbolStore :=
  { s with cache_path := none }

/-- `SymbolStore::download_file`: transport errors and body-read errors
are `Http` errors; a missing `Content-Length` header hits `assert!`,
an unparsable one hits `unwrap`, and a body-length mismatch hits
`assert_eq!` — all three abort (panic). -/
def download_file (fetch : String → Except Unit HttpResponse) (url : String) : DlResult :=
  match fetch url with
  | .error _ => .err ⟨.http, "unable to download pdb"⟩
  | .ok resp =>
    match resp.contentLength with
    | none => .panicked
    | some none => .panicked
    | some (some len) =>
      match resp.body with
      | .error _ => .err ⟨.http, "unable to read from http request"⟩
      | .ok buffer =>
        if buffer.length = len then .ok buffer else .panicked

/-- `SymbolStore::download`: try
`{base_url}/{file_name}/{guid}/{file_name}` and on error retry with the
`file.ptr` suffix (a panic is not caught by `or_else`). -/
def download (fetch : String → Except Unit HttpResponse) (s : SymbolStore)
    (g : Win32Guid) : DlResult :=
  let pdb_url := s.base_url ++ "/" ++ g.file_name ++ "/" ++ g.guid
  match download_file fetch (pdb_url ++ "/" ++ g.file_name) with
  | .ok b => .ok b
  | .panicked => .panicked
  | .err _ => download_file fetch (pdb_url ++ "/" ++ "file.ptr")

/-- A transport that always answers with `Content-Length: 10` but a
5-byte body. -/
def cexFetchMismatch : String → Except Unit HttpResponse :=
  fun _ => .ok ⟨some (some 10), .ok (List.replicate 5 0)⟩

/-- A transport whose responses carry no `Content-Length` header. -/
def cexFetchNoLen : String → Except Unit HttpResponse :=
  fun _ => .ok ⟨none, .ok []⟩

/-- A transport that always answers with a 3-byte body and matching
`Content-Length`. -/
def cexFetchOk : String → Except Unit HttpResponse :=
  fun _ => .ok ⟨some (some 3), .ok [1, 2, 3]⟩

/-- A concrete store with a cache path. -/
def cexStore : SymbolStore where
  base_url := "https://msdl.microsoft.com/download/symbols"
  cache_path := some "cache"

/-- Outcome of `SymbolStore::load` over an idealized file system
(`String → Option (List Nat)`), tracking the resulting file system,
the number of network download attempts, and the number of cache-file
reads. -/
structure LoadOutcome where
  result : DlResult
  fs : String → Option (List Nat)
  downloads : Nat
  cacheReads : Nat

/-- `SymbolStore::load`: with a cache path, a cache hit at
`<cache_path>/<file_name>/<guid>` is read and returned with no
download; on a miss the PDB is downloaded, written to that path and
returned.  Without a cache path every load downloads and never
touches the file system. -/
def load (fetch : String → Except Unit HttpResponse) (s : SymbolStore)
    (g : Win32Guid) (fs : String → Option (List Nat)) : LoadOutcome :=
  match s.cache_path with
  | some cache_path =>
    let cache_dir := cache_path ++ "/" ++ g.file_name
    let cache_file := cache_dir ++ "/" ++ g.guid
    match fs cache_file with
    | some buffer => ⟨.ok buffer, fs, 0, 1⟩
    | none =>
      match download fetch s g with
      | .ok buffer =>
        ⟨.ok buffer, fun p => if p = cache_file then some buffer else fs p, 1, 0⟩
      | r => ⟨r, fs, 1, 0⟩
  | none => ⟨download fetch s g, fs, 1, 0⟩

end SymStore

/-! ## `kernel/ntos/x64.rs` and `ntos::find` -/

namespace NtosX64

/-- `mem::mb`. -/
def mb (n : Nat) : Nat := n * 1024 * 1024

/-- What the locator can observe about the 4 KiB page at a virtual
address: the DOS header fields it checks, the `try_get_pe_name`
outcome and the `try_get_pe_size` outcome. -/
structure PageInfo where
  e_magic : Nat
  e_lfanew : Int
  peName : Option String
  peSize : Except Win32Error Nat

/-- `x64::find_with_va`: scan the 512 page-aligned candidates of the
2 MiB buffer read at `va_base`; keep pages with `e_magic == MZ` and
`e_lfanew <= 0x800`, and take the first whose PE export name is
`ntoskrnl.exe` (a failed name read counts as the empty name). -/
def find_with_va (env : Nat → PageInfo) (va_base : Nat) : Except Win32Error Nat :=
  match ((List.range 512).filter fun i =>
      (env (va_base + i * 0x1000)).e_magic == 0x5a4d &&
        decide ((env (va_base + i * 0x1000)).e_lfanew ≤ 0x800)).find?
      (fun i => ((env (va_base + i * 0x1000)).peName.getD "") == "ntoskrnl.exe") with
  | some i => .ok (va_base + i * 0x1000)
  | none => .error ⟨.processNotFound, "unable to locate ntoskrnl.exe"⟩

/-- The probe loop of `x64::find_with_va_hint`: while
`va_base + 16 MiB > kernel_hint`, probe `va_base` and on failure
decrement by 2 MiB (fuel-driven; the loop runs at most 8 times). -/
def findWithVaHintLoop (env : Nat → PageInfo) (hint : Nat) :
    Nat → Nat → Except Win32Error (Nat × Nat)
  | 0, _ =>
    .error ⟨.processNotFound,
      "x64::find_with_va_hint: unable to locate ntoskrnl.exe via va hint"⟩
  | fuel + 1, va_base =>
    if va_base + mb 16 > hint then
      match find_with_va env va_base with
      | .ok a =>
        match (env a).peSize with
        | .ok sz => .ok (a, sz)
        | .error e => .error e
      | .error _ => findWithVaHintLoop env hint fuel (va_base - mb 2)
    else
      .error ⟨.processNotFound,
        "x64::find_with_va_hint: unable to locate ntoskrnl.exe via va hint"⟩

/-- `x64::find_with_va_hint`: start at `kernel_hint & !0x1ffff` and run
the probe loop. -/
def find_with_va_hint (env : Nat → PageInfo) (sb : StartBlock) :
    Except Win32Error (Nat × Nat) :=
  findWithVaHintLoop env sb.kernel_hint 16 (sb.kernel_hint &&& (2 ^ 64 - 0x20000))

/-- The probe sequence as the specification words it: try each 2 MiB
base in order, return the first hit (with its `SizeOfImage`, whose
read failure propagates), and report `ProcessNotFound` when the
candidate list is exhausted. -/
def probeFirst (env : Nat → PageInfo) : List Nat → Except Win32Error (Nat × Nat)
  | [] =>
    .error ⟨.processNotFound,
      "x64::find_with_va_hint: unable to locate ntoskrnl.exe via va hint"⟩
  | va :: rest =>
    match find_with_va env va with
    | .ok a =>
      match (env a).peSize with
      | .ok sz => .ok (a, sz)
      | .error e => .error e
    | .error _ => probeFirst env rest

/-- A memory view with no PE candidates anywhere. -/
def cexPageEnv : Nat → PageInfo := fun _ => ⟨0, 0, none, .ok 0⟩

/-- `ArchitectureObj::bits` for the four architectures. -/
def archBits : Arch → Nat
  | .x86 => 32
  | .x86pae => 32
  | .x64 => 64
  | .aarch64 => 64

/-- `ntos::find`: on 64-bit targets try the va-hint probe first (only
when the hint is non-null), then the page-map scan (whose outcome,
`x64::find`, is a collaborator result here); on 32-bit targets only
the x86 scan runs. -/
def ntosFind (env : Nat → PageInfo)
    (x64FindResult x86FindResult : Except Win32Error (Nat × Nat))
    (sb : StartBlock) : Except Win32Error (Nat × Nat) :=
  if archBits sb.arch = 64 then
    if sb.kernel_hint ≠ 0 then
      match find_with_va_hint env sb with
      | .ok b => .ok b
      | .error _ =>
        match x64FindResult with
        | .ok b => .ok b
        | .error _ => .error ⟨.processNotFound, "unable to find ntoskrnl.exe"⟩
    else
      match x64FindResult with
      | .ok b => .ok b
      | .error _ => .error ⟨.processNotFound, "unable to find ntoskrnl.exe"⟩
  else
    match x86FindResult with
    | .ok b => .ok b
    | .error _ => .error ⟨.processNotFound, "unable to find ntoskrnl.exe"⟩

end NtosX64

/-! ## `win32/kernel_info.rs` : `KernelInfoScanner::scan_block` -/

namespace KernelInfo

/-- The stage outcomes `scan_block` threads together. -/
structure ScanStages where
  ntosFind : Except Win32Error (Nat × Nat)
  findGuid : Except Win32Error Win32Guid
  findWinver : Except Win32Error Win32Version
  sysprocFind : Except Win32Error Nat

/-- `Win32KernelInfo`. -/
structure Win32KernelInfo where
  base : Nat
  size : Nat
  arch : Arch
  dtb : Nat
  kernel_guid : Option Win32Guid
  kernel_winver : Win32Version
  eprocess_base : Nat
  deriving DecidableEq, Repr

/-- `Result::ok()`. -/
def exceptOk (r : Except Win32Error α) : Option α :=
  match r with
  | .ok a => some a
  | .error _ => none

/-- Concrete stage outcomes: ntos location and sysproc succeed while
GUID and version discovery both fail. -/
def cexStages : ScanStages where
  ntosFind := .ok (100, 200)
  findGuid := .error ⟨.invalidExeFile, "guid failed"⟩
  findWinver := .error ⟨.invalidExeFile, "winver failed"⟩
  sysprocFind := .ok 300

/-- `KernelInfoScanner::scan_block`: ntos location and sysproc are
required; GUID and version discovery are best-effort (`.ok()`), with
`Win32Version::new(3, 10, 511)` substituted for a missing version. -/
def scan_block (st : ScanStages) (sb : StartBlock) : Except Win32Error Win32KernelInfo :=
  match st.ntosFind with
  | .error e => .error e
  | .ok (base, size) =>
    let kernel_guid := exceptOk st.findGuid
    let kernel_winver := (exceptOk st.findWinver).getD ⟨3, 10, 511⟩
    match st.sysprocFind with
    | .error e => .error e
    | .ok eprocess_base =>
      .ok ⟨base, size, sb.arch, sb.dtb, kernel_guid, kernel_winver, eprocess_base⟩

end KernelInfo

/-! ## `offsets/mod.rs` : `Win32Offsets::from_pdb_slice` -/

namespace Offsets

/-- A struct field as reported by the PDB extractor. -/
structure PdbFieldInfo where
  offset : Nat
  bit_offset : Nat
  deriving DecidableEq, Repr

/-- Abstract view of a PDB blob: whether the symbol table parses
(`PdbSymbols::new`), the symbol RVAs, and for each struct name the
struct's field table (`PdbStruct::new` / `find_field`). -/
structure PdbData where
  hasSymbols : Bool
  findSymbol : String → Option Nat
  structs : String → Option (String → Option PdbFieldInfo)

/-- `MmVadOffsetTable`. -/
structure MmVadOffsetTable where
  vad_node : Nat
  starting_vpn : Nat
  ending_vpn : Nat
  starting_vpn_high : Nat
  ending_vpn_high : Nat
  u : Nat
  protection_bit : Nat
  deriving DecidableEq, Repr

/-- `Win32OffsetTable`. -/
structure Win32OffsetTable where
  list_blink : Nat
  eproc_link : Nat
  phys_mem_block : Nat
  kproc_dtb : Nat
  eproc_pid : Nat
  eproc_name : Nat
  eproc_peb : Nat
  eproc_section_base : Nat
  eproc_exit_status : Nat
  eproc_thread_list : Nat
  eproc_wow64 : Nat
  eproc_vad_root : Nat
  kthread_teb : Nat
  ethread_list_entry : Nat
  teb_peb : Nat
  teb_peb_x86 : Nat
  mmvad : MmVadOffsetTable
  deriving DecidableEq, Repr

/-- The struct names `from_pdb_slice` requires unconditionally. -/
def requiredStructs : List String :=
  ["_LIST_ENTRY", "_KPROCESS", "_EPROCESS", "_ETHREAD", "_KTHREAD", "_TEB",
    "_MMVAD_SHORT", "_MMVAD_FLAGS"]

/-- The `(struct, field)` pairs `from_pdb_slice` requires whenever the
struct is present (`_TEB32` itself is optional, but its
`ProcessEnvironmentBlock` field is required once `_TEB32` parses). -/
def requiredFields : List (String × String) :=
  [("_LIST_ENTRY", "Blink"), ("_EPROCESS", "ActiveProcessLinks"),
    ("_KPROCESS", "DirectoryTableBase"), ("_EPROCESS", "UniqueProcessId"),
    ("_EPROCESS", "ImageFileName"), ("_EPROCESS", "Peb"),
    ("_EPROCESS", "SectionBaseAddress"), ("_EPROCESS", "ExitStatus"),
    ("_EPROCESS", "ThreadListHead"), ("_KTHREAD", "Teb"),
    ("_ETHREAD", "ThreadListEntry"), ("_TEB", "ProcessEnvironmentBlock"),
    ("_TEB32", "ProcessEnvironmentBlock"), ("_EPROCESS", "VadRoot")]

/-- The struct named `s` parses from the blob. -/
def structOk (pdb : PdbData) (s : String) : Bool :=
  (pdb.structs s).isSome

/-- If the struct `p.1` parses, its field `p.2` is found (a pair whose
struct does not parse is not this pair's failure). -/
def fieldOk (pdb : PdbData) (p : String × String) : Bool :=
  match pdb.structs p.1 with
  | some st => (st p.2).isSome
  | none => true

/-- Every required struct parses, and every required field of a
present struct is found. -/
def requiredPresent (pdb : PdbData) : Prop :=
  (∀ s ∈ requiredStructs, structOk pdb s = true) ∧
  (∀ p ∈ requiredFields, fieldOk pdb p = true)

/-- A PDB view where every struct and every field resolve at offset 8
(bit offset 3) and no symbol RVA is known. -/
def cexPdb : PdbData where
  hasSymbols := true
  findSymbol := fun _ => none
  structs := fun _ => some (fun _ => some ⟨8, 3⟩)

/-- The diagnostic names a genuinely absent required struct, or a
genuinely absent required field of a present struct. -/
def missingDiag (pdb : PdbData) (msg : String) : Prop :=
  (∃ s ∈ requiredStructs, pdb.structs s = none ∧ msg = s ++ " not found") ∨
  (∃ p ∈ requiredFields, (∃ st, pdb.structs p.1 = some st ∧ st p.2 = none) ∧
    msg = p.1 ++ "::" ++ p.2 ++ " not found")

/-- `PdbStruct::new(pdb_slice, name).map_err(.. Offset "<name> not found")?`. -/
def reqStruct (pdb : PdbData) (name : String) :
    Except Win32Error (String → Option PdbFieldInfo) :=
  match pdb.structs name with
  | some s => .ok s
  | none => .error ⟨.offset, name ++ " not found"⟩

/-- `s.find_field(fname).ok_or(.. Offset "<sname>::<fname> not found")?`. -/
def reqField (s : String → Option PdbFieldInfo) (sname fname : String) :
    Except Win32Error PdbFieldInfo :=
  match s fname with
  | some f => .ok f
  | none => .error ⟨.offset, sname ++ "::" ++ fname ++ " not found"⟩

/-- The struct/field resolution part of `Win32Offsets::from_pdb_slice`,
in the source's order: all required structs, then the fields.  Optional
lookups (`phys_mem_block`, `eproc_wow64`, the `_MMVAD_SHORT` vpn fields,
`u`, `Protection`, and `_TEB32` itself) default to `0`; everything
else propagates an `Offset` error naming the missing item. -/
def fromPdbStructs (pdb : PdbData) : Except Win32Error Win32OffsetTable := do
  let list ← reqStruct pdb "_LIST_ENTRY"
  let kproc ← reqStruct pdb "_KPROCESS"
  let eproc ← reqStruct pdb "_EPROCESS"
  let ethread ← reqStruct pdb "_ETHREAD"
  let kthread ← reqStruct pdb "_KTHREAD"
  let teb ← reqStruct pdb "_TEB"
  let mm_vad ← reqStruct pdb "_MMVAD_SHORT"
  let mm_vad_flags ← reqStruct pdb "_MMVAD_FLAGS"
  let phys_mem_block :=
    ((pdb.findSymbol "MmPhysicalMemoryBlock").or
      (pdb.findSymbol "_MmPhysicalMemoryBlock")).getD 0
  let list_blink ← reqField list "_LIST_ENTRY" "Blink"
  let eproc_link ← reqField eproc "_EPROCESS" "ActiveProcessLinks"
  let kproc_dtb ← reqField kproc "_KPROCESS" "DirectoryTableBase"
  let eproc_pid ← reqField eproc "_EPROCESS" "UniqueProcessId"
  let eproc_name ← reqField eproc "_EPROCESS" "ImageFileName"
  let eproc_peb ← reqField eproc "_EPROCESS" "Peb"
  let eproc_section_base ← reqField eproc "_EPROCESS" "SectionBaseAddress"
  let eproc_exit_status ← reqField eproc "_EPROCESS" "ExitStatus"
  let eproc_thread_list ← reqField eproc "_EPROCESS" "ThreadListHead"
  let eproc_wow64 :=
    match (eproc "WoW64Process").or (eproc "Wow64Process") with
    | some f => f.offset
    | none => 0
  let kthread_teb ← reqField kthread "_KTHREAD" "Teb"
  let ethread_list_entry ← reqField ethread "_ETHREAD" "ThreadListEntry"
  let teb_peb ← reqField teb "_TEB" "ProcessEnvironmentBlock"
  let teb_peb_x86 ←
    match pdb.structs "_TEB32" with
    | some teb32 =>
      (reqField teb32 "_TEB32" "ProcessEnvironmentBlock").map (·.offset)
    | none => pure 0
  let eproc_vad_root ← reqField eproc "_EPROCESS" "VadRoot"
  let vad_node :=
    (((mm_vad "VadNode").or (mm_vad "LeftChild")).map (·.offset)).getD 0
  let starting_vpn := ((mm_vad "StartingVpn").map (·.offset)).getD 0
  let ending_vpn := ((mm_vad "EndingVpn").map (·.offset)).getD 0
  let starting_vpn_high := ((mm_vad "StartingVpnHigh").map (·.offset)).getD 0
  let ending_vpn_high := ((mm_vad "EndingVpnHigh").map (·.offset)).getD 0
  let u := ((mm_vad "u").map (·.offset)).getD 0
  let protection_bit := ((mm_vad_flags "Protection").map (·.bit_offset)).getD 0
  return {
    list_blink := list_blink.offset
    eproc_link := eproc_link.offset
    phys_mem_block := phys_mem_block
    kproc_dtb := kproc_dtb.offset
    eproc_pid := eproc_pid.offset
    eproc_name := eproc_name.offset
    eproc_peb := eproc_peb.offset
    eproc_section_base := eproc_section_base.offset
    eproc_exit_status := eproc_exit_status.offset
    eproc_thread_list := eproc_thread_list.offset
    eproc_wow64 := eproc_wow64
    eproc_vad_root := eproc_vad_root.offset
    kthread_teb := kthread_teb.offset
    ethread_list_entry := ethread_list_entry.offset
    teb_peb := teb_peb.offset
    teb_peb_x86 := teb_peb_x86
    mmvad := {
      vad_node := vad_node
      starting_vpn := starting_vpn
      ending_vpn := ending_vpn
      starting_vpn_high := starting_vpn_high
      ending_vpn_high := ending_vpn_high
      u := u
      protection_bit := protection_bit
    }
  }

/-- `Win32Offsets::from_pdb_slice`: the `PdbSymbols::new` check
(`"Symbols not found"` on failure) followed by the struct and field
resolution of `fromPdbStructs`. -/
def from_pdb_slice (pdb : PdbData) : Except Win32Error Win32OffsetTable :=
  match pdb.hasSymbols with
  | false => .error ⟨.offset, "Symbols not found"⟩
  | true => fromPdbStructs pdb

end Offsets

/-! ## Foundational lemmas about the chunking helpers -/

theorem exactChunksAux_congr {α : Type _} (n : Nat) :
    ∀ (fuel fuel' : Nat) (l : List α), l.length ≤ fuel → l.length ≤ fuel' →
      exactChunksAux fuel n l = exactChunksAux fuel' n l := by
  intro fuel
  induction fuel with
  | zero =>
    intro fuel' l h h'
    have hl : l = [] := List.length_eq_zero.mp (Nat.le_zero.mp h)
    subst hl
    cases fuel' with
    | zero => rfl
    | succ m =>
      simp only [exactChunksAux]
      rw [if_neg]
      rintro ⟨h1, h2⟩
      simp only [List.length_nil] at h2
      omega
  | succ fuel ih =>
    intro fuel' l h h'
    cases fuel' with
    | zero =>
      have hl : l = [] := List.length_eq_zero.mp (Nat.le_zero.mp h')
      subst hl
      simp only [exactChunksAux]
      rw [if_neg]
      rintro ⟨h1, h2⟩
      simp only [List.length_nil] at h2
      omega
    | succ fuel' =>
      simp only [exactChunksAux]
      by_cases hc : 0 < n ∧ n ≤ l.length
      · rw [if_pos hc, if_pos hc]
        congr 1
        exact ih fuel' (l.drop n)
          (by simp only [List.length_drop]; omega)
          (by simp only [List.length_drop]; omega)
      · rw [if_neg hc, if_neg hc]

theorem exactChunks_eq (n : Nat) (l : List α) :
    exactChunks n l =
      if 0 < n ∧ n ≤ l.length then l.take n :: exactChunks n (l.drop n) else [] := by
  by_cases hc : 0 < n ∧ n ≤ l.length
  · rw [if_pos hc]
    unfold exactChunks
    have h1 : l.length = (l.length - 1) + 1 := by omega
    rw [h1]
    simp only [exactChunksAux]
    rw [if_pos hc]
    congr 1
    exact exactChunksAux_congr n _ _ _
      (by simp only [List.length_drop]; omega) (le_refl _)
  · rw [if_neg hc]
    unfold exactChunks
    rcases hlen : l.length with _ | k
    · rfl
    · simp only [exactChunksAux]
      rw [if_neg hc]

theorem exactChunks_cons_chunk (n : Nat) {l₁ : List α} (l₂ : List α)
    (h : l₁.length = n) (hn : 0 < n) :
    exactChunks n (l₁ ++ l₂) = l₁ :: exactChunks n l₂ := by
  rw [exactChunks_eq,
    if_pos ⟨hn, by rw [List.length_append, h]; omega⟩,
    List.take_left' h, List.drop_left' h]

theorem exactChunks_replicate (n k : Nat) (hn : 0 < n) (a : α) :
    exactChunks n (List.replicate (k * n) a) = List.replicate k (List.replicate n a) := by
  induction k with
  | zero =>
    simp only [Nat.zero_mul, List.replicate_zero]
    rfl
  | succ k ih =>
    have hadd : (k + 1) * n = n + k * n := by ring
    rw [hadd, List.replicate_add,
      exactChunks_cons_chunk n _ (List.length_replicate _ _) hn, ih,
      List.replicate_succ]

theorem exactChunks_self {l : List α} {n : Nat} (h : l.length = n) (hn : 0 < n) :
    exactChunks n l = [l] := by
  rw [exactChunks_eq, if_pos ⟨hn, le_of_eq h.symm⟩, ← h,
    List.take_length, List.drop_length]
  rfl

theorem chunksPadAux_congr {α : Type _} (n : Nat) :
    ∀ (fuel fuel' : Nat) (l : List α), l.length ≤ fuel → l.length ≤ fuel' →
      chunksPadAux fuel n l = chunksPadAux fuel' n l := by
  intro fuel
  induction fuel with
  | zero =>
    intro fuel' l h h'
    have hl : l = [] := List.length_eq_zero.mp (Nat.le_zero.mp h)
    subst hl
    cases fuel' with
    | zero => rfl
    | succ m =>
      simp only [chunksPadAux]
      rw [if_neg]
      rintro ⟨h1, h2⟩
      simp only [List.length_nil] at h2
      omega
  | succ fuel ih =>
    intro fuel' l h h'
    cases fuel' with
    | zero =>
      have hl : l = [] := List.length_eq_zero.mp (Nat.le_zero.mp h')
      subst hl
      simp only [chunksPadAux]
      rw [if_neg]
      rintro ⟨h1, h2⟩
      simp only [List.length_nil] at h2
      omega
    | succ fuel' =>
      simp only [chunksPadAux]
      by_cases hc : 0 < n ∧ 0 < l.length
      · rw [if_pos hc, if_pos hc]
        congr 1
        exact ih fuel' (l.drop n)
          (by simp only [List.length_drop]; omega)
          (by simp only [List.length_drop]; omega)
      · rw [if_neg hc, if_neg hc]

theorem chunksPad_eq (n : Nat) (l : List α) :
    chunksPad n l =
      if 0 < n ∧ 0 < l.length then l.take n :: chunksPad n (l.drop n) else [] := by
  by_cases hc : 0 < n ∧ 0 < l.length
  · rw [if_pos hc]
    unfold chunksPad
    have h1 : l.length = (l.length - 1) + 1 := by omega
    rw [h1]
    simp only [chunksPadAux]
    rw [if_pos hc]
    congr 1
    exact chunksPadAux_congr n _ _ _
      (by simp only [List.length_drop]; omega) (le_refl _)
  · rw [if_neg hc]
    unfold chunksPad
    rcases hlen : l.length with _ | k
    · rfl
    · simp only [chunksPadAux]
      rw [if_neg hc]

theorem exactChunks_length_mul {l : List α} {n k : Nat} (h : l.length = k * n)
    (hn : 0 < n) : (exactChunks n l).length = k := by
  induction k generalizing l with
  | zero =>
    have hl : l = [] := List.length_eq_zero.mp (by omega)
    subst hl
    rfl
  | succ k ih =>
    rw [exactChunks_eq, if_pos ⟨hn, by rw [h]; calc n = 1 * n := by omega
      _ ≤ (k + 1) * n := Nat.mul_le_mul_right n (by omega)⟩]
    simp only [List.length_cons]
    rw [ih (by simp only [List.length_drop]; rw [h]; ring_nf; omega)]

theorem enum_eq_enumFrom (l : List α) : l.enum = l.enumFrom 0 := rfl

theorem getD_of_lt (l : List α) (i : Nat) (d : α) (h : i < l.length) :
    l.getD i d = l[i] := by
  simp [List.getD_eq_getElem?_getD, List.getElem?_eq_getElem h]

theorem getD_map_of_lt {α β : Type _} (f : α → β) {l : List α} {i : Nat}
    (h : i < l.length) (d : α) (d' : β) :
    (l.map f).getD i d' = f (l.getD i d) := by
  simp only [List.getD_eq_getElem?_getD, List.getElem?_map,
    List.getElem?_eq_getElem h]
  rfl

/-! ## First-match characterizations of the iterator chains -/

theorem find?_enumFrom_some_iff {α : Type _} (p : Nat × α → Bool) (d : α) :
    ∀ (l : List α) (k : Nat) (x : Nat × α),
      ((l.enumFrom k).find? p = some x ↔
        ∃ i, i < l.length ∧ x = (k + i, l.getD i d) ∧ p (k + i, l.getD i d) = true ∧
          ∀ j, j < i → p (k + j, l.getD j d) = false) := by
  intro l
  induction l with
  | nil => intro k x; simp
  | cons a t ih =>
    intro k x
    rw [List.enumFrom_cons]
    by_cases hp : p (k, a) = true
    · rw [List.find?_cons_of_pos _ hp]
      constructor
      · intro h
        injection h with h
        refine ⟨0, Nat.succ_pos _, ?_, ?_, fun j hj => absurd hj (Nat.not_lt_zero j)⟩
        · simp only [Nat.add_zero, List.getD_cons_zero]
          exact h.symm
        · simp only [Nat.add_zero, List.getD_cons_zero]
          exact hp
      · rintro ⟨i, hi, hx, hpi, hprev⟩
        cases i with
        | zero =>
          simp only [Nat.add_zero, List.getD_cons_zero] at hx
          rw [hx]
        | succ i =>
          have h0 := hprev 0 (Nat.succ_pos i)
          simp only [Nat.add_zero, List.getD_cons_zero] at h0
          rw [hp] at h0
          exact absurd h0 (by simp)
    · rw [List.find?_cons_of_neg _ hp, ih (k + 1) x]
      constructor
      · rintro ⟨i, hi, hx, hpi, hprev⟩
        refine ⟨i + 1, by simp only [List.length_cons]; omega, ?_, ?_, ?_⟩
        · rw [hx, List.getD_cons_succ]
          congr 1
          omega
        · rw [List.getD_cons_succ, (by omega : k + (i + 1) = k + 1 + i)]
          exact hpi
        · intro j hj
          cases j with
          | zero =>
            simp only [Nat.add_zero, List.getD_cons_zero]
            exact Bool.eq_false_iff.mpr hp
          | succ j =>
            have hpj := hprev j (by omega)
            rw [List.getD_cons_succ, (by omega : k + (j + 1) = k + 1 + j)]
            exact hpj
      · rintro ⟨i, hi, hx, hpi, hprev⟩
        cases i with
        | zero =>
          simp only [Nat.add_zero, List.getD_cons_zero] at hpi
          exact absurd hpi hp
        | succ i =>
          refine ⟨i, by simp only [List.length_cons] at hi; omega, ?_, ?_, ?_⟩
          · rw [hx, List.getD_cons_succ]
            congr 1
            omega
          · rw [List.getD_cons_succ, (by omega : k + (i + 1) = k + 1 + i)] at hpi
            exact hpi
          · intro j hj
            have hpj := hprev (j + 1) (by omega)
            rw [List.getD_cons_succ, (by omega : k + (j + 1) = k + 1 + j)] at hpj
            exact hpj

theorem find?_enumFrom_none_iff {α : Type _} (p : Nat × α → Bool) (d : α) :
    ∀ (l : List α) (k : Nat),
      ((l.enumFrom k).find? p = none ↔
        ∀ i, i < l.length → p (k + i, l.getD i d) = false) := by
  intro l
  induction l with
  | nil => intro k; simp
  | cons a t ih =>
    intro k
    rw [List.enumFrom_cons]
    by_cases hp : p (k, a) = true
    · rw [List.find?_cons_of_pos _ hp]
      constructor
      · intro h
        exact absurd h (by simp)
      · intro h
        have h0 := h 0 (Nat.succ_pos _)
        simp only [Nat.add_zero, List.getD_cons_zero] at h0
        rw [hp] at h0
        exact absurd h0 (by simp)
    · rw [List.find?_cons_of_neg _ hp, ih (k + 1)]
      constructor
      · intro h j hj
        cases j with
        | zero =>
          simp only [Nat.add_zero, List.getD_cons_zero]
          exact Bool.eq_false_iff.mpr hp
        | succ j =>
          have hpj := h j (by simp only [List.length_cons] at hj; omega)
          rw [List.getD_cons_succ, (by omega : k + (j + 1) = k + 1 + j)]
          exact hpj
      · intro h i hi
        have hpi := h (i + 1) (by simp only [List.length_cons]; omega)
        rw [List.getD_cons_succ, (by omega : k + (i + 1) = k + 1 + i)] at hpi
        exact hpi

theorem head?_filterMap_enumFrom_some_iff {α β : Type _} (f : Nat × α → Option β) (d : α) :
    ∀ (l : List α) (k : Nat) (b : β),
      (((l.enumFrom k).filterMap f).head? = some b ↔
        ∃ i, i < l.length ∧ f (k + i, l.getD i d) = some b ∧
          ∀ j, j < i → f (k + j, l.getD j d) = none) := by
  intro l
  induction l with
  | nil => intro k b; simp
  | cons a t ih =>
    intro k b
    rw [List.enumFrom_cons]
    rcases hfa : f (k, a) with _ | b₀
    · rw [List.filterMap_cons_none hfa, ih (k + 1) b]
      constructor
      · rintro ⟨i, hi, hfi, hprev⟩
        refine ⟨i + 1, by simp only [List.length_cons]; omega, ?_, ?_⟩
        · rw [List.getD_cons_succ, (by omega : k + (i + 1) = k + 1 + i)]
          exact hfi
        · intro j hj
          cases j with
          | zero => simpa only [Nat.add_zero, List.getD_cons_zero] using hfa
          | succ j =>
            have hpj := hprev j (by omega)
            rw [List.getD_cons_succ, (by omega : k + (j + 1) = k + 1 + j)]
            exact hpj
      · rintro ⟨i, hi, hfi, hprev⟩
        cases i with
        | zero =>
          simp only [Nat.add_zero, List.getD_cons_zero] at hfi
          rw [hfa] at hfi
          exact absurd hfi (by simp)
        | succ i =>
          refine ⟨i, by simp only [List.length_cons] at hi; omega, ?_, ?_⟩
          · rw [List.getD_cons_succ, (by omega : k + (i + 1) = k + 1 + i)] at hfi
            exact hfi
          · intro j hj
            have hpj := hprev (j + 1) (by omega)
            rw [List.getD_cons_succ, (by omega : k + (j + 1) = k + 1 + j)] at hpj
            exact hpj
    · rw [List.filterMap_cons_some hfa]
      simp only [List.head?_cons]
      constructor
      · intro h
        injection h with h
        refine ⟨0, Nat.succ_pos _, ?_, fun j hj => absurd hj (Nat.not_lt_zero j)⟩
        simp only [Nat.add_zero, List.getD_cons_zero]
        rw [hfa, h]
      · rintro ⟨i, hi, hfi, hprev⟩
        cases i with
        | zero =>
          simp only [Nat.add_zero, List.getD_cons_zero] at hfi
          rw [hfa] at hfi
          injection hfi with hfi
          rw [hfi]
        | succ i =>
          have h0 := hprev 0 (Nat.succ_pos i)
          simp only [Nat.add_zero, List.getD_cons_zero] at h0
          rw [hfa] at h0
          exact absurd h0 (by simp)

theorem head?_filterMap_enumFrom_none_iff {α β : Type _} (f : Nat × α → Option β) (d : α) :
    ∀ (l : List α) (k : Nat),
      (((l.enumFrom k).filterMap f).head? = none ↔
        ∀ i, i < l.length → f (k + i, l.getD i d) = none) := by
  intro l
  induction l with
  | nil => intro k; simp
  | cons a t ih =>
    intro k
    rw [List.enumFrom_cons]
    rcases hfa : f (k, a) with _ | b₀
    · rw [List.filterMap_cons_none hfa, ih (k + 1)]
      constructor
      · intro h j hj
        cases j with
        | zero => simpa only [Nat.add_zero, List.getD_cons_zero] using hfa
        | succ j =>
          have hpj := h j (by simp only [List.length_cons] at hj; omega)
          rw [List.getD_cons_succ, (by omega : k + (j + 1) = k + 1 + j)]
          exact hpj
      · intro h i hi
        have hpi := h (i + 1) (by simp only [List.length_cons]; omega)
        rw [List.getD_cons_succ, (by omega : k + (i + 1) = k + 1 + i)] at hpi
        exact hpi
    · rw [List.filterMap_cons_some hfa]
      constructor
      · intro h
        exact absurd h (by simp)
      · intro h
        have h0 := h 0 (Nat.succ_pos _)
        simp only [Nat.add_zero, List.getD_cons_zero] at h0
        rw [hfa] at h0
        exact absurd h0 (by simp)

/-! ## Claim C4 : the x86-PAE start-block scanner -/

/-- C4: a page at physical address `addr` is accepted by the x86-PAE
scanner iff its first four qwords equal `addr + ((i*8) << 9) + 0x1001`
and all later qwords are zero; `find` returns the first matching page
(in ascending address order) as `StartBlock { X86PAE, NULL, addr }`
and a `NotFound` error when no page matches. -/
theorem spec_C4_x86pae_scanner (mem : List Nat) (addr : Nat) (page : List Nat)
    (haddr : addr < 2 ^ 48) (hpage : page.length = 0x1000) :
    ((X86PAE.qwords page).length = 512 ∧
      (X86PAE.check_page addr page = true ↔
        ∀ i, i < 512 →
          (X86PAE.qwords page).getD i 0 =
            if i < 4 then addr + ((i * 8) <<< 9) + 0x1001 else 0)) ∧
    (∀ sb, X86PAE.find mem = .ok sb ↔
      ∃ i, i < (chunksPad 0x1000 mem).length ∧
        X86PAE.check_page (0x1000 * i) ((chunksPad 0x1000 mem).getD i []) = true ∧
        (∀ j, j < i →
          X86PAE.check_page (0x1000 * j) ((chunksPad 0x1000 mem).getD j []) = false) ∧
        sb = ⟨.x86pae, 0, 0x1000 * i⟩) ∧
    (X86PAE.find mem = .error ⟨.notFound, "unable to find x86_pae dtb in lowstub < 16M"⟩ ↔
      ∀ i, i < (chunksPad 0x1000 mem).length →
        X86PAE.check_page (0x1000 * i) ((chunksPad 0x1000 mem).getD i []) = false) := by
  have e64 : (2 : Nat) ^ 64 = 18446744073709551616 := by norm_num
  have e48 : (2 : Nat) ^ 48 = 281474976710656 := by norm_num
  have hchunks : (exactChunks 8 page).length = 512 :=
    exactChunks_length_mul (by rw [hpage]) (by norm_num)
  refine ⟨⟨?_, ?_⟩, ?_, ?_⟩
  · simp only [X86PAE.qwords, List.length_map]
    exact hchunks
  · unfold X86PAE.check_page
    rw [enum_eq_enumFrom, List.all_eq_true, List.forall_mem_enumFrom]
    constructor
    · intro h i hi
      have hb : i < (exactChunks 8 page).length := by rw [hchunks]; exact hi
      have hcall := h i hb
      simp only [Nat.zero_add] at hcall
      rw [X86PAE.qwords, getD_map_of_lt leU64 hb [] 0, getD_of_lt _ _ _ hb]
      by_cases hi4 : i < 4
      · rw [if_pos hi4] at hcall ⊢
        simp only [beq_iff_eq] at hcall
        have hsh : (i * 8) <<< 9 = i * 4096 := by
          rw [Nat.shiftLeft_eq]
          norm_num
          ring
        rw [hsh] at hcall ⊢
        rw [Nat.mod_eq_of_lt (by rw [e64]; rw [e48] at haddr; omega)] at hcall
        exact hcall
      · rw [if_neg hi4] at hcall ⊢
        simp only [beq_iff_eq] at hcall
        exact hcall
    · intro h i hb
      have hi : i < 512 := by rw [hchunks] at hb; exact hb
      have hcall := h i hi
      rw [X86PAE.qwords, getD_map_of_lt leU64 hb [] 0, getD_of_lt _ _ _ hb] at hcall
      simp only [Nat.zero_add]
      by_cases hi4 : i < 4
      · rw [if_pos hi4] at hcall ⊢
        simp only [beq_iff_eq]
        have hsh : (i * 8) <<< 9 = i * 4096 := by
          rw [Nat.shiftLeft_eq]
          norm_num
          ring
        rw [hsh] at hcall ⊢
        rw [Nat.mod_eq_of_lt (by rw [e64]; rw [e48] at haddr; omega)]
        exact hcall
      · rw [if_neg hi4] at hcall ⊢
        simp only [beq_iff_eq]
        exact hcall
  · intro sb
    rcases hres : (chunksPad 0x1000 mem).enum.find?
        (fun p => X86PAE.check_page (0x1000 * p.1) p.2) with _ | p
    · have hfm : X86PAE.find mem =
          .error ⟨.notFound, "unable to find x86_pae dtb in lowstub < 16M"⟩ := by
        unfold X86PAE.find
        rw [hres]
      rw [hfm]
      constructor
      · intro h
        exact absurd h (by simp)
      · rintro ⟨i, hi, hcheck, -, -⟩
        have hn := (find?_enumFrom_none_iff
            (fun p => X86PAE.check_page (0x1000 * p.1) p.2) []
            (chunksPad 0x1000 mem) 0).mp (by rw [← enum_eq_enumFrom]; exact hres)
        have hfalse := hn i hi
        simp only [Nat.zero_add] at hfalse
        rw [hcheck] at hfalse
        exact absurd hfalse (by decide)
    · have hfm : X86PAE.find mem = .ok ⟨.x86pae, 0, 0x1000 * p.1⟩ := by
        unfold X86PAE.find
        rw [hres]
      rw [hfm]
      have hs := (find?_enumFrom_some_iff
          (fun p => X86PAE.check_page (0x1000 * p.1) p.2) []
          (chunksPad 0x1000 mem) 0 p).mp (by rw [← enum_eq_enumFrom]; exact hres)
      obtain ⟨i, hi, hxp, hpi, hprev⟩ := hs
      simp only [Nat.zero_add] at hxp hpi hprev
      constructor
      · intro h
        injection h with h
        refine ⟨i, hi, hpi, fun j hj => hprev j hj, ?_⟩
        rw [← h, hxp]
      · rintro ⟨i', hi', hcheck', hprev', hsb⟩
        have hii : i' = i := by
          by_contra hne
          rcases Nat.lt_or_ge i' i with hlt | hge
          · have hf := hprev i' hlt
            rw [hcheck'] at hf
            exact absurd hf (by decide)
          · have hgt : i < i' := by omega
            have hf := hprev' i hgt
            rw [hpi] at hf
            exact absurd hf (by decide)
        subst hii
        rw [hsb, hxp]
  · rcases hres : (chunksPad 0x1000 mem).enum.find?
        (fun p => X86PAE.check_page (0x1000 * p.1) p.2) with _ | p
    · have hfm : X86PAE.find mem =
          .error ⟨.notFound, "unable to find x86_pae dtb in lowstub < 16M"⟩ := by
        unfold X86PAE.find
        rw [hres]
      rw [hfm]
      have hn := (find?_enumFrom_none_iff
          (fun p => X86PAE.check_page (0x1000 * p.1) p.2) []
          (chunksPad 0x1000 mem) 0).mp (by rw [← enum_eq_enumFrom]; exact hres)
      constructor
      · intro _ i hi
        have hfalse := hn i hi
        simp only [Nat.zero_add] at hfalse
        exact hfalse
      · intro _
        rfl
    · have hfm : X86PAE.find mem = .ok ⟨.x86pae, 0, 0x1000 * p.1⟩ := by
        unfold X86PAE.find
        rw [hres]
      rw [hfm]
      have hs := (find?_enumFrom_some_iff
          (fun p => X86PAE.check_page (0x1000 * p.1) p.2) []
          (chunksPad 0x1000 mem) 0 p).mp (by rw [← enum_eq_enumFrom]; exact hres)
      obtain ⟨i, hi, hxp, hpi, hprev⟩ := hs
      simp only [Nat.zero_add] at hxp hpi hprev
      constructor
      · intro h
        exact absurd h (by simp)
      · intro hall
        have hf := hall i hi
        rw [hpi] at hf
        exact absurd hf (by decide)

/-! ## Claim C2 : the AArch64 start-block scanner -/

theorem find_pt_eq_if (addr : Nat) (page : List Nat) :
    AArch64.find_pt addr page =
      if AArch64.qualifies addr page then some addr else none := by
  unfold AArch64.find_pt
  by_cases h1 : (leU64 (page.take 8) &&& 0xfff) ≠ 0xf03 ∨
      (leU64 (page.take 8) &&& 0x0000FFFFFFFFF000) > AArch64.maxMem
  · rw [if_pos h1, if_neg]
    rintro ⟨q1, q2, -, -⟩
    rcases h1 with h1 | h1
    · exact h1 q1
    · omega
  · rw [if_neg h1]
    push_neg at h1
    obtain ⟨h1a, h1b⟩ := h1
    rcases hfind : (AArch64.upperHalf page).find?
        (fun a => (a ^^^ 0xf03) &&& ((2 ^ 64 - 1) >>> 12) == addr) with _ | e
    · rw [if_neg]
      rintro ⟨-, -, ⟨e, hmem, he⟩, -⟩
      have hne := List.find?_eq_none.mp hfind e hmem
      exact hne (by simp only [beq_iff_eq]; exact he)
    · rcases hnth : ((AArch64.upperHalf page).filter
          fun a => (a &&& 0xfff) == 0x703)[5]? with _ | x
      · rw [if_neg]
        rintro ⟨-, -, -, h6⟩
        have hlen := List.getElem?_eq_none_iff.mp hnth
        omega
      · rw [if_pos]
        refine ⟨h1a, h1b, ?_, ?_⟩
        · refine ⟨e, List.mem_of_find?_eq_some hfind, ?_⟩
          have hpe := List.find?_some hfind
          simpa only [beq_iff_eq] using hpe
        · have := List.getElem?_eq_some_iff.mp hnth
          obtain ⟨hlt, -⟩ := this
          omega

/-- C2 (amended): a page qualifies iff the first PTE's low 12 bits are
`0xF03` and its masked frame is at most (not strictly below) 512 GiB,
the upper half holds an entry `e` with `(e ^^^ 0xF03) & (!0u64 >> 12)`
(the low-52-bit mask, not `~0xFFF`) equal to the page address, and at
least six upper-half entries have low 12 bits `0x703`; `find` returns
the first qualifying page at `PHYS_BASE +` its byte offset as an
AArch64 start block with NULL kernel hint, and `NotFound` otherwise. -/
theorem spec_C2_aarch64_scanner (mem : List Nat) :
    (∀ addr page, AArch64.find_pt addr page =
      if AArch64.qualifies addr page then some addr else none) ∧
    (∀ sb, AArch64.find mem = .ok sb ↔
      ∃ i, i < (exactChunks 0x1000 mem).length ∧
        AArch64.qualifies (AArch64.PHYS_BASE + i * 0x1000)
          ((exactChunks 0x1000 mem).getD i []) ∧
        (∀ j, j < i → ¬ AArch64.qualifies (AArch64.PHYS_BASE + j * 0x1000)
          ((exactChunks 0x1000 mem).getD j [])) ∧
        sb = ⟨.aarch64, 0, AArch64.PHYS_BASE + i * 0x1000⟩) ∧
    (AArch64.find mem = .error ⟨.notFound, "unable to find aarch64 dtb in lowstub < 16M"⟩ ↔
      ∀ i, i < (exactChunks 0x1000 mem).length →
        ¬ AArch64.qualifies (AArch64.PHYS_BASE + i * 0x1000)
          ((exactChunks 0x1000 mem).getD i [])) := by
  have hpt := find_pt_eq_if
  refine ⟨hpt, ?_, ?_⟩
  · intro sb
    rcases hres : ((exactChunks 0x1000 mem).enum.filterMap
        (fun p => AArch64.find_pt (AArch64.PHYS_BASE + p.1 * 0x1000) p.2)).head? with _ | a
    · have hfm : AArch64.find mem =
          .error ⟨.notFound, "unable to find aarch64 dtb in lowstub < 16M"⟩ := by
        unfold AArch64.find
        rw [hres]
      rw [hfm]
      constructor
      · intro h
        exact absurd h (by simp)
      · rintro ⟨i, hi, hq, -, -⟩
        have hn := (head?_filterMap_enumFrom_none_iff
            (fun p => AArch64.find_pt (AArch64.PHYS_BASE + p.1 * 0x1000) p.2) []
            (exactChunks 0x1000 mem) 0).mp (by rw [← enum_eq_enumFrom]; exact hres)
        have hnone := hn i hi
        simp only [Nat.zero_add] at hnone
        rw [hpt, if_pos hq] at hnone
        exact absurd hnone (by simp)
    · have hfm : AArch64.find mem = .ok ⟨.aarch64, 0, a⟩ := by
        unfold AArch64.find
        rw [hres]
      rw [hfm]
      have hs := (head?_filterMap_enumFrom_some_iff
          (fun p => AArch64.find_pt (AArch64.PHYS_BASE + p.1 * 0x1000) p.2) []
          (exactChunks 0x1000 mem) 0 a).mp (by rw [← enum_eq_enumFrom]; exact hres)
      obtain ⟨i, hi, hfi, hprev⟩ := hs
      simp only [Nat.zero_add] at hfi hprev
      rw [hpt] at hfi
      have hqi : AArch64.qualifies (AArch64.PHYS_BASE + i * 0x1000)
          ((exactChunks 0x1000 mem).getD i []) := by
        by_contra hq
        rw [if_neg hq] at hfi
        exact absurd hfi (by simp)
      rw [if_pos hqi] at hfi
      injection hfi with hfi
      constructor
      · intro h
        injection h with h
        refine ⟨i, hi, hqi, ?_, ?_⟩
        · intro j hj
          have hpj := hprev j hj
          rw [hpt] at hpj
          intro hqj
          rw [if_pos hqj] at hpj
          exact absurd hpj (by simp)
        · rw [← h, ← hfi]
      · rintro ⟨i', hi', hqi', hprev', hsb⟩
        have hii : i' = i := by
          by_contra hne
          rcases Nat.lt_or_ge i' i with hlt | hge
          · have hpj := hprev i' hlt
            rw [hpt, if_pos hqi'] at hpj
            exact absurd hpj (by simp)
          · exact absurd hqi (hprev' i (by omega))
        subst hii
        rw [hsb, ← hfi]
  · rcases hres : ((exactChunks 0x1000 mem).enum.filterMap
        (fun p => AArch64.find_pt (AArch64.PHYS_BASE + p.1 * 0x1000) p.2)).head? with _ | a
    · have hfm : AArch64.find mem =
          .error ⟨.notFound, "unable to find aarch64 dtb in lowstub < 16M"⟩ := by
        unfold AArch64.find
        rw [hres]
      rw [hfm]
      have hn := (head?_filterMap_enumFrom_none_iff
          (fun p => AArch64.find_pt (AArch64.PHYS_BASE + p.1 * 0x1000) p.2) []
          (exactChunks 0x1000 mem) 0).mp (by rw [← enum_eq_enumFrom]; exact hres)
      constructor
      · intro _ i hi hq
        have hnone := hn i hi
        simp only [Nat.zero_add] at hnone
        rw [hpt, if_pos hq] at hnone
        exact absurd hnone (by simp)
      · intro _
        rfl
    · have hfm : AArch64.find mem = .ok ⟨.aarch64, 0, a⟩ := by
        unfold AArch64.find
        rw [hres]
      rw [hfm]
      have hs := (head?_filterMap_enumFrom_some_iff
          (fun p => AArch64.find_pt (AArch64.PHYS_BASE + p.1 * 0x1000) p.2) []
          (exactChunks 0x1000 mem) 0 a).mp (by rw [← enum_eq_enumFrom]; exact hres)
      obtain ⟨i, hi, hfi, -⟩ := hs
      simp only [Nat.zero_add] at hfi
      rw [hpt] at hfi
      constructor
      · intro h
        exact absurd h (by simp)
      · intro hall
        refine absurd ?_ (hall i hi)
        by_contra hq
        rw [if_neg hq] at hfi
        exact absurd hfi (by simp)

theorem aarch64_upperHalf_append (low high : List Nat) (h : low.length = 0x800) :
    AArch64.upperHalf (low ++ high) = (exactChunks 8 high).map leU64 := by
  unfold AArch64.upperHalf
  rw [List.drop_left' h]

theorem aarch64_replicate_1992 :
    List.replicate 1992 (0 : Nat) = List.replicate (249 * 8) 0 := by
  norm_num

theorem aarch64_chunks_cexHighA :
    exactChunks 8 AArch64.cexHighA =
      AArch64.selfRefClaimBytes :: AArch64.entry703Bytes :: AArch64.entry703Bytes ::
      AArch64.entry703Bytes :: AArch64.entry703Bytes :: AArch64.entry703Bytes ::
      AArch64.entry703Bytes :: List.replicate 249 (List.replicate 8 0) := by
  unfold AArch64.cexHighA
  rw [exactChunks_cons_chunk 8 _ (by rfl) (by norm_num),
    exactChunks_cons_chunk 8 _ (by rfl) (by norm_num),
    exactChunks_cons_chunk 8 _ (by rfl) (by norm_num),
    exactChunks_cons_chunk 8 _ (by rfl) (by norm_num),
    exactChunks_cons_chunk 8 _ (by rfl) (by norm_num),
    exactChunks_cons_chunk 8 _ (by rfl) (by norm_num),
    exactChunks_cons_chunk 8 _ (by rfl) (by norm_num),
    aarch64_replicate_1992, exactChunks_replicate 8 249 (by norm_num) 0]

theorem aarch64_chunks_cexHighB :
    exactChunks 8 AArch64.cexHighB =
      AArch64.selfRefCodeBytes :: AArch64.entry703Bytes :: AArch64.entry703Bytes ::
      AArch64.entry703Bytes :: AArch64.entry703Bytes :: AArch64.entry703Bytes ::
      AArch64.entry703Bytes :: List.replicate 249 (List.replicate 8 0) := by
  unfold AArch64.cexHighB
  rw [exactChunks_cons_chunk 8 _ (by rfl) (by norm_num),
    exactChunks_cons_chunk 8 _ (by rfl) (by norm_num),
    exactChunks_cons_chunk 8 _ (by rfl) (by norm_num),
    exactChunks_cons_chunk 8 _ (by rfl) (by norm_num),
    exactChunks_cons_chunk 8 _ (by rfl) (by norm_num),
    exactChunks_cons_chunk 8 _ (by rfl) (by norm_num),
    exactChunks_cons_chunk 8 _ (by rfl) (by norm_num),
    aarch64_replicate_1992, exactChunks_replicate 8 249 (by norm_num) 0]

theorem aarch64_cexLowA_length : AArch64.cexLowA.length = 0x800 := by
  rw [AArch64.cexLowA, List.length_append, List.length_replicate]
  decide

theorem aarch64_cexLowB_length : AArch64.cexLowB.length = 0x800 := by
  rw [AArch64.cexLowB, List.length_append, List.length_replicate]
  decide

theorem aarch64_upperHalf_cexPageA :
    AArch64.upperHalf AArch64.cexPageA =
      0x40000103 :: 0x703 :: 0x703 :: 0x703 :: 0x703 :: 0x703 :: 0x703 ::
        List.replicate 249 0 := by
  unfold AArch64.cexPageA
  rw [aarch64_upperHalf_append _ _ aarch64_cexLowA_length,
    aarch64_chunks_cexHighA]
  simp only [List.map_cons, List.map_replicate]
  rw [(by decide : leU64 AArch64.selfRefClaimBytes = 0x40000103),
    (by decide : leU64 AArch64.entry703Bytes = 0x703),
    (by decide : leU64 (List.replicate 8 0) = 0)]

theorem aarch64_upperHalf_cexPageB :
    AArch64.upperHalf AArch64.cexPageB =
      0x40000F03 :: 0x703 :: 0x703 :: 0x703 :: 0x703 :: 0x703 :: 0x703 ::
        List.replicate 249 0 := by
  unfold AArch64.cexPageB
  rw [aarch64_upperHalf_append _ _ aarch64_cexLowB_length,
    aarch64_chunks_cexHighB]
  simp only [List.map_cons, List.map_replicate]
  rw [(by decide : leU64 AArch64.selfRefCodeBytes = 0x40000F03),
    (by decide : leU64 AArch64.entry703Bytes = 0x703),
    (by decide : leU64 (List.replicate 8 0) = 0)]

theorem aarch64_take8_cexPageA :
    AArch64.cexPageA.take 8 = [0x03, 0x0F, 0, 0, 0, 0, 0, 0] := by
  unfold AArch64.cexPageA AArch64.cexLowA
  rw [List.append_assoc, List.take_left' (by rfl)]

theorem aarch64_take8_cexPageB :
    AArch64.cexPageB.take 8 = [0x03, 0x0F, 0, 0, 0x80, 0, 0, 0] := by
  unfold AArch64.cexPageB AArch64.cexLowB
  rw [List.append_assoc, List.take_left' (by rfl)]

theorem aarch64_cexHighA_length : AArch64.cexHighA.length = 0x800 := by
  rw [AArch64.cexHighA]
  simp only [List.length_append, List.length_replicate]
  decide

theorem aarch64_cexHighB_length : AArch64.cexHighB.length = 0x800 := by
  rw [AArch64.cexHighB]
  simp only [List.length_append, List.length_replicate]
  decide

theorem aarch64_cexPageA_length : AArch64.cexPageA.length = 0x1000 := by
  rw [AArch64.cexPageA, List.length_append, aarch64_cexLowA_length,
    aarch64_cexHighA_length]

theorem aarch64_cexPageB_length : AArch64.cexPageB.length = 0x1000 := by
  rw [AArch64.cexPageB, List.length_append, aarch64_cexLowB_length,
    aarch64_cexHighB_length]

theorem aarch64_chunks_cexPageA :
    exactChunks 0x1000 AArch64.cexPageA = [AArch64.cexPageA] :=
  exactChunks_self aarch64_cexPageA_length (by norm_num)

theorem aarch64_chunks_cexPageB :
    exactChunks 0x1000 AArch64.cexPageB = [AArch64.cexPageB] :=
  exactChunks_self aarch64_cexPageB_length (by norm_num)

/-- C2 counterexample: page A meets every acceptance condition exactly
as the claim words them (self-reference mask `~0xFFF`, frame strictly
below 512 GiB) yet the scanner reports `NotFound`; page B is accepted
by the scanner although its first PTE's frame is exactly 512 GiB,
which the claim's strict bound excludes.  Both refute the claimed
if-and-only-if at a concrete scanned window. -/
theorem spec_C2_aarch64_counterexample :
    (exactChunks 0x1000 AArch64.cexPageA = [AArch64.cexPageA] ∧
      AArch64.claimQualifies AArch64.PHYS_BASE AArch64.cexPageA ∧
      AArch64.find AArch64.cexPageA =
        .error ⟨.notFound, "unable to find aarch64 dtb in lowstub < 16M"⟩) ∧
    (exactChunks 0x1000 AArch64.cexPageB = [AArch64.cexPageB] ∧
      ¬ AArch64.claimQualifies AArch64.PHYS_BASE AArch64.cexPageB ∧
      AArch64.find AArch64.cexPageB = .ok ⟨.aarch64, 0, AArch64.PHYS_BASE⟩) := by
  have hnqA : ¬ AArch64.qualifies (AArch64.PHYS_BASE + 0 * 0x1000) AArch64.cexPageA := by
    rintro ⟨-, -, ⟨e, hmem, he⟩, -⟩
    rw [aarch64_upperHalf_cexPageA] at hmem
    simp only [List.mem_cons, List.mem_replicate] at hmem
    rcases hmem with rfl | rfl | rfl | rfl | rfl | rfl | rfl | ⟨-, rfl⟩ <;>
      exact absurd he (by decide)
  have hfA : AArch64.find_pt (AArch64.PHYS_BASE + 0 * 0x1000) AArch64.cexPageA = none := by
    rw [find_pt_eq_if, if_neg hnqA]
  have hqB : AArch64.qualifies (AArch64.PHYS_BASE + 0 * 0x1000) AArch64.cexPageB := by
    refine ⟨?_, ?_, ⟨0x40000F03, ?_, ?_⟩, ?_⟩
    · rw [aarch64_take8_cexPageB]
      decide
    · rw [aarch64_take8_cexPageB]
      decide
    · rw [aarch64_upperHalf_cexPageB]
      exact List.mem_cons_self _ _
    · decide
    · rw [aarch64_upperHalf_cexPageB]
      decide
  have hfB : AArch64.find_pt (AArch64.PHYS_BASE + 0 * 0x1000) AArch64.cexPageB =
      some (AArch64.PHYS_BASE + 0 * 0x1000) := by
    rw [find_pt_eq_if, if_pos hqB]
  refine ⟨⟨aarch64_chunks_cexPageA, ?_, ?_⟩, ⟨aarch64_chunks_cexPageB, ?_, ?_⟩⟩
  · unfold AArch64.claimQualifies
    rw [aarch64_take8_cexPageA, aarch64_upperHalf_cexPageA]
    decide
  · unfold AArch64.find
    rw [aarch64_chunks_cexPageA]
    simp only [List.enum_cons, List.enumFrom_nil]
    simp only [List.filterMap_cons, List.filterMap_nil]
    rw [hfA]
    rfl
  · unfold AArch64.claimQualifies
    rw [aarch64_take8_cexPageB, aarch64_upperHalf_cexPageB]
    decide
  · unfold AArch64.find
    rw [aarch64_chunks_cexPageB]
    simp only [List.enum_cons, List.enumFrom_nil]
    simp only [List.filterMap_cons, List.filterMap_nil]
    rw [hfB]
    rfl

/-- Witness for C4 at `mem = []`, `addr = 0`,
`page = List.replicate 0x1000 0`. -/
theorem spec_C4_x86pae_scanner_witness :
    ((0 : Nat) < 2 ^ 48 ∧ (List.replicate 0x1000 0 : List Nat).length = 0x1000) ∧
    (((X86PAE.qwords (List.replicate 0x1000 0)).length = 512 ∧
      (X86PAE.check_page 0 (List.replicate 0x1000 0) = true ↔
        ∀ i, i < 512 →
          (X86PAE.qwords (List.replicate 0x1000 0)).getD i 0 =
            if i < 4 then 0 + ((i * 8) <<< 9) + 0x1001 else 0)) ∧
    (∀ sb, X86PAE.find [] = .ok sb ↔
      ∃ i, i < (chunksPad 0x1000 ([] : List Nat)).length ∧
        X86PAE.check_page (0x1000 * i) ((chunksPad 0x1000 ([] : List Nat)).getD i []) = true ∧
        (∀ j, j < i →
          X86PAE.check_page (0x1000 * j)
            ((chunksPad 0x1000 ([] : List Nat)).getD j []) = false) ∧
        sb = ⟨.x86pae, 0, 0x1000 * i⟩) ∧
    (X86PAE.find [] = .error ⟨.notFound, "unable to find x86_pae dtb in lowstub < 16M"⟩ ↔
      ∀ i, i < (chunksPad 0x1000 ([] : List Nat)).length →
        X86PAE.check_page (0x1000 * i)
          ((chunksPad 0x1000 ([] : List Nat)).getD i []) = false)) :=
  ⟨⟨by norm_num, by rw [List.length_replicate]⟩,
    spec_C4_x86pae_scanner [] 0 (List.replicate 0x1000 0) (by norm_num)
      (by rw [List.length_replicate])⟩

/-! ## Claim C3 : the RtlGetVersion disassembly fallback -/

theorem foldl_winverStep_const (buf : Nat → Nat) (s : Nat × Nat) :
    ∀ l : List Nat, (∀ i ∈ l, Ntos.winverStep buf s i = s) →
      l.foldl (Ntos.winverStep buf) s = s := by
  intro l
  induction l with
  | nil => intro _; rfl
  | cons a t ih =>
    intro h
    rw [List.foldl_cons, h a (List.mem_cons_self _ _)]
    exact ih (fun i hi => h i (List.mem_cons_of_mem _ hi))

theorem buf841_ge4 {i : Nat} (h : 4 ≤ i) : Ntos.buf841 i = 0 := by
  unfold Ntos.buf841
  rw [if_neg (by omega), if_neg (by omega), if_neg (by omega), if_neg (by omega)]

theorem leU32At_buf841_ge4 {i : Nat} (h : 4 ≤ i) : Ntos.leU32At Ntos.buf841 i = 0 := by
  unfold Ntos.leU32At
  rw [buf841_ge4 h, buf841_ge4 (by omega), buf841_ge4 (by omega), buf841_ge4 (by omega)]

theorem winverStep_buf841_const {i : Nat} (h : 1 ≤ i) :
    Ntos.winverStep Ntos.buf841 (6, 0) i = (6, 0) := by
  rcases i with _ | _ | _ | _ | j
  · omega
  · decide
  · decide
  · decide
  · have h32 : Ntos.leU32At Ntos.buf841 (j + 4) = 0 := leU32At_buf841_ge4 (by omega)
    unfold Ntos.winverStep
    simp [h32]

theorem winverScan_buf841 : Ntos.winverScan Ntos.buf841 = (6, 0) := by
  unfold Ntos.winverScan
  rw [(by norm_num : (0xf0 : Nat) = 239 + 1), List.range_succ_eq_map,
    List.foldl_cons, (by decide : Ntos.winverStep Ntos.buf841 (0, 0) 0 = (6, 0))]
  apply foldl_winverStep_const
  intro i hi
  rw [List.mem_map] at hi
  obtain ⟨j, hj, rfl⟩ := hi
  exact winverStep_buf841_const (by omega)

/-- C3: the fallback scan applies exactly the three match predicates
(the third one writing to major under a minor-still-0 guard, verbatim);
on a buffer holding only `C7 41 08 06` the scan therefore ends with
major 6 and minor 0; and the fallback is entered only when the
KUSER_SHARED_DATA major read is 0 and RtlGetVersion resolved,
otherwise the KUSER values are returned unchanged. -/
theorem spec_C3_winver_fallback_scan (env : Ntos.WinverEnv) (base ntbRva rtlRva : Nat)
    (ntb maj minor : Nat) (buf : Nat → Nat)
    (himage : env.image = .ok ())
    (hexpN : env.exports "NtBuildNumber" = .symbol ntbRva)
    (hexpR : env.exports "RtlGetVersion" = .symbol rtlRva)
    (hntb : env.read32 (base + ntbRva) = .ok ntb)
    (hntb0 : ntb ≠ 0)
    (hmaj : env.read32 (0x7ffe0000 + 0x026C) = .ok maj)
    (hmin : env.read32 (0x7ffe0000 + 0x0270) = .ok minor)
    (hbuf : env.readBuf (base + rtlRva) = .ok buf) :
    (∀ b, Ntos.winverScan b = Ntos.winverScanSpec b) ∧
    Ntos.winverScan Ntos.buf841 = (6, 0) ∧
    (Ntos.find_winver env base).1 =
      .ok (if maj = 0 then
            ⟨(Ntos.winverScan buf).1, (Ntos.winverScan buf).2, ntb⟩
          else ⟨maj, minor, ntb⟩) := by
  refine ⟨fun b => rfl, winverScan_buf841, ?_⟩
  unfold Ntos.find_winver Ntos.get_export
  rw [himage, hexpN, hexpR]
  simp only []
  rw [hntb]
  simp only []
  rw [if_neg hntb0, hmaj]
  simp only []
  rw [hmin]
  simp only []
  by_cases hm : maj = 0
  · rw [if_pos hm, hbuf]
    simp only []
    rw [if_pos hm]
  · rw [if_neg hm, if_neg hm]

/-- Witness for C3: a concrete environment whose KUSER major read is 0
and whose RtlGetVersion body is `buf841`; the fallback runs and its
third predicate sets major to 6. -/
theorem spec_C3_winver_fallback_scan_witness :
    (Ntos.cexEnv.image = .ok () ∧
      Ntos.cexEnv.exports "NtBuildNumber" = .symbol 1 ∧
      Ntos.cexEnv.exports "RtlGetVersion" = .symbol 2 ∧
      Ntos.cexEnv.read32 (0 + 1) = .ok 7601 ∧
      (7601 : Nat) ≠ 0 ∧
      Ntos.cexEnv.read32 (0x7ffe0000 + 0x026C) = .ok 0 ∧
      Ntos.cexEnv.read32 (0x7ffe0000 + 0x0270) = .ok 1 ∧
      Ntos.cexEnv.readBuf (0 + 2) = .ok Ntos.buf841) ∧
    ((∀ b, Ntos.winverScan b = Ntos.winverScanSpec b) ∧
      Ntos.winverScan Ntos.buf841 = (6, 0) ∧
      (Ntos.find_winver Ntos.cexEnv 0).1 =
        .ok (if (0 : Nat) = 0 then
              ⟨(Ntos.winverScan Ntos.buf841).1, (Ntos.winverScan Ntos.buf841).2, 7601⟩
            else ⟨0, 1, 7601⟩)) :=
  ⟨⟨rfl, rfl, rfl, rfl, by decide, rfl, rfl, rfl⟩,
    spec_C3_winver_fallback_scan Ntos.cexEnv 0 1 2 7601 0 1 Ntos.buf841
      rfl rfl rfl rfl (by decide) rfl rfl rfl⟩

/-! ## Claim C5 : zero build number fails; version and GUID are best-effort -/

/-- C5: `find_winver` errors (with an `InvalidExeFile` diagnostic) when
the `u32` read at `kernel_base + NtBuildNumber rva` is 0; in
`scan_block` a failed version discovery is replaced by
`Win32Version::new(3, 10, 511)` and a failed GUID discovery yields
`kernel_guid = None`, the scan succeeding either way. -/
theorem spec_C5_best_effort_version
    (env : Ntos.WinverEnv) (base ntbRva : Nat)
    (himage : env.image = .ok ())
    (hexpN : env.exports "NtBuildNumber" = .symbol ntbRva)
    (hzero : env.read32 (base + ntbRva) = .ok 0)
    (st : KernelInfo.ScanStages) (sb : StartBlock) (nb sz eb : Nat)
    (hntos : st.ntosFind = .ok (nb, sz))
    (hsys : st.sysprocFind = .ok eb) :
    (Ntos.find_winver env base).1 =
      .error ⟨.invalidExeFile, "unable to fetch nt build number"⟩ ∧
    (∀ e, st.findWinver = .error e →
      KernelInfo.scan_block st sb =
        .ok ⟨nb, sz, sb.arch, sb.dtb, KernelInfo.exceptOk st.findGuid, ⟨3, 10, 511⟩, eb⟩) ∧
    (∀ e, st.findGuid = .error e →
      KernelInfo.scan_block st sb =
        .ok ⟨nb, sz, sb.arch, sb.dtb, none,
          (KernelInfo.exceptOk st.findWinver).getD ⟨3, 10, 511⟩, eb⟩) := by
  refine ⟨?_, ?_, ?_⟩
  · unfold Ntos.find_winver Ntos.get_export
    rw [himage, hexpN]
    simp only []
    rw [hzero]
    simp only []
    rw [if_pos trivial]
  · intro e he
    unfold KernelInfo.scan_block
    rw [hntos]
    simp only []
    rw [hsys]
    simp only [KernelInfo.exceptOk, he, Option.getD_none]
  · intro e he
    unfold KernelInfo.scan_block
    rw [hntos]
    simp only []
    rw [hsys]
    simp only [KernelInfo.exceptOk, he]

/-- Witness for C5: `cexEnv` read at `5 + 1` yields 0, and `cexStages`
has both best-effort stages failing while the scan still returns a
kernel info with version `{3, 10, 511}` and no GUID. -/
theorem spec_C5_best_effort_version_witness :
    (Ntos.cexEnv.image = .ok () ∧
      Ntos.cexEnv.exports "NtBuildNumber" = .symbol 1 ∧
      Ntos.cexEnv.read32 (5 + 1) = .ok 0 ∧
      KernelInfo.cexStages.ntosFind = .ok (100, 200) ∧
      KernelInfo.cexStages.sysprocFind = .ok 300) ∧
    ((Ntos.find_winver Ntos.cexEnv 5).1 =
      .error ⟨.invalidExeFile, "unable to fetch nt build number"⟩ ∧
    (∀ e, KernelInfo.cexStages.findWinver = .error e →
      KernelInfo.scan_block KernelInfo.cexStages ⟨.x64, 7, 9⟩ =
        .ok ⟨100, 200, Arch.x64, 9, KernelInfo.exceptOk KernelInfo.cexStages.findGuid,
          ⟨3, 10, 511⟩, 300⟩) ∧
    (∀ e, KernelInfo.cexStages.findGuid = .error e →
      KernelInfo.scan_block KernelInfo.cexStages ⟨.x64, 7, 9⟩ =
        .ok ⟨100, 200, Arch.x64, 9, none,
          (KernelInfo.exceptOk KernelInfo.cexStages.findWinver).getD ⟨3, 10, 511⟩, 300⟩)) :=
  ⟨⟨rfl, rfl, rfl, rfl, rfl⟩,
    spec_C5_best_effort_version Ntos.cexEnv 5 1 rfl rfl rfl
      KernelInfo.cexStages ⟨.x64, 7, 9⟩ 100 200 300 rfl rfl⟩

/-! ## Claim C10 : NtBuildNumber is required, RtlGetVersion is optional -/

/-- C10: when the `NtBuildNumber` export is absent or forwarded,
`find_winver` fails with an `ExportNotFound` error having issued no
`u32` read at all (in particular none of KUSER_SHARED_DATA), whatever
the reads would have returned; when only `RtlGetVersion` is missing,
`find_winver` still succeeds with the KUSER-read version. -/
theorem spec_C10_ntbuildnumber_required
    (env env2 : Ntos.WinverEnv) (base base2 ntbRva ntb maj minor : Nat)
    (himage : env.image = .ok ())
    (hexp : env.exports "NtBuildNumber" = .absent ∨
      env.exports "NtBuildNumber" = .forwarded)
    (himage2 : env2.image = .ok ())
    (hexpN2 : env2.exports "NtBuildNumber" = .symbol ntbRva)
    (hexpR2 : env2.exports "RtlGetVersion" = .absent)
    (hntb2 : env2.read32 (base2 + ntbRva) = .ok ntb)
    (hntb0 : ntb ≠ 0)
    (hmaj2 : env2.read32 (0x7ffe0000 + 0x026C) = .ok maj)
    (hmin2 : env2.read32 (0x7ffe0000 + 0x0270) = .ok minor) :
    ((∃ e, (Ntos.find_winver env base).1 = .error e ∧ e.kind = .exportNotFound) ∧
      (Ntos.find_winver env base).2 = []) ∧
    (Ntos.find_winver env2 base2).1 = .ok ⟨maj, minor, ntb⟩ := by
  constructor
  · unfold Ntos.find_winver Ntos.get_export
    rw [himage]
    rcases hexp with hexp | hexp <;>
      (rw [hexp]; exact ⟨⟨⟨.exportNotFound, _⟩, rfl, rfl⟩, rfl⟩)
  · unfold Ntos.find_winver Ntos.get_export
    rw [himage2, hexpN2, hexpR2]
    simp only []
    rw [hntb2]
    simp only []
    rw [if_neg hntb0, hmaj2]
    simp only []
    rw [hmin2]

/-- Witness for C10: `cexEnvForwarded` (every export forwarded) and
`cexEnvNoRtl` (no RtlGetVersion, KUSER major 6 / minor 1,
build 7601). -/
theorem spec_C10_ntbuildnumber_required_witness :
    (Ntos.cexEnvForwarded.image = .ok () ∧
      Ntos.cexEnvForwarded.exports "NtBuildNumber" = .forwarded ∧
      Ntos.cexEnvNoRtl.image = .ok () ∧
      Ntos.cexEnvNoRtl.exports "NtBuildNumber" = .symbol 1 ∧
      Ntos.cexEnvNoRtl.exports "RtlGetVersion" = .absent ∧
      Ntos.cexEnvNoRtl.read32 (0 + 1) = .ok 7601 ∧
      (7601 : Nat) ≠ 0 ∧
      Ntos.cexEnvNoRtl.read32 (0x7ffe0000 + 0x026C) = .ok 6 ∧
      Ntos.cexEnvNoRtl.read32 (0x7ffe0000 + 0x0270) = .ok 1) ∧
    (((∃ e, (Ntos.find_winver Ntos.cexEnvForwarded 0).1 = .error e ∧
        e.kind = .exportNotFound) ∧
      (Ntos.find_winver Ntos.cexEnvForwarded 0).2 = []) ∧
    (Ntos.find_winver Ntos.cexEnvNoRtl 0).1 = .ok ⟨6, 1, 7601⟩) :=
  ⟨⟨rfl, rfl, rfl, rfl, rfl, rfl, by decide, rfl, rfl⟩,
    spec_C10_ntbuildnumber_required Ntos.cexEnvForwarded Ntos.cexEnvNoRtl 0 0 1 7601 6 1
      rfl (Or.inr rfl) rfl rfl rfl rfl (by decide) rfl rfl⟩

/-! ## Claim C6 : `find_guid` and the GUID string form -/

theorem hexDigitChar_isHex : ∀ n, n < 16 → Guid.isUpperHexDigit (Guid.hexDigitChar n) := by
  decide

theorem hexCharsAux_isHex :
    ∀ (fuel n : Nat), ∀ c ∈ Guid.hexCharsAux fuel n, Guid.isUpperHexDigit c := by
  intro fuel
  induction fuel with
  | zero => intro n c hc; simp [Guid.hexCharsAux] at hc
  | succ fuel ih =>
    intro n c hc
    rw [Guid.hexCharsAux] at hc
    by_cases hn : n = 0
    · rw [if_pos hn] at hc
      simp at hc
    · rw [if_neg hn, List.mem_append] at hc
      rcases hc with hc | hc
      · exact ih _ c hc
      · rw [List.mem_singleton] at hc
        rw [hc]
        exact hexDigitChar_isHex _ (Nat.mod_lt _ (by norm_num))

theorem fmtUpperHex_isHex (n : Nat) : ∀ c ∈ Guid.fmtUpperHex n, Guid.isUpperHexDigit c := by
  intro c hc
  unfold Guid.fmtUpperHex at hc
  by_cases h : n = 0
  · rw [if_pos h, List.mem_singleton] at hc
    rw [hc]
    decide
  · rw [if_neg h] at hc
    exact hexCharsAux_isHex 32 n c hc

theorem fmtUpperHexPad_isHex (w n : Nat) :
    ∀ c ∈ Guid.fmtUpperHexPad w n, Guid.isUpperHexDigit c := by
  intro c hc
  rw [Guid.fmtUpperHexPad, List.mem_append] at hc
  rcases hc with hc | hc
  · rw [List.mem_replicate] at hc
    rw [hc.2]
    decide
  · exact fmtUpperHex_isHex n c hc

theorem guidUpperHex_isHex (g : Guid.MsGuid) :
    ∀ c ∈ Guid.guidUpperHex g, Guid.isUpperHexDigit c := by
  intro c hc
  rw [Guid.guidUpperHex] at hc
  simp only [List.mem_append] at hc
  rcases hc with ((hc | hc) | hc) | hc
  · exact fmtUpperHexPad_isHex _ _ c hc
  · exact fmtUpperHexPad_isHex _ _ c hc
  · exact fmtUpperHexPad_isHex _ _ c hc
  · rw [List.mem_flatten] at hc
    obtain ⟨l, hl, hcl⟩ := hc
    rw [List.mem_map] at hl
    obtain ⟨b, -, rfl⟩ := hl
    exact fmtUpperHexPad_isHex _ _ c hcl

/-- C6: `find_guid` rejects a leading CodeView 2.0 entry with
`InvalidExeFile`; a leading Cv70 entry with signature `sig` and age
`age` yields the GUID string `{:X}` of the signature followed by
`{:X}` of the age, every character of which is an uppercase hex digit
(so the string contains no separators). -/
theorem spec_C6_guid_extraction (env : Guid.FindGuidEnv)
    (entries : List Guid.DebugEntry) (fname : String) (sig : Guid.MsGuid) (age : Nat)
    (himage : env.image = .ok ())
    (hdebug : env.debug = .ok entries)
    (hfname : env.pdbFileName = some fname) :
    ((entries.filterMap Guid.asCodeView).head? = some .cv20 →
      Guid.find_guid env =
        .error ⟨.invalidExeFile, "invalid code_view entry version 2 found, expected 7"⟩) ∧
    ((entries.filterMap Guid.asCodeView).head? = some (.cv70 sig age) →
      Guid.find_guid env =
        .ok ⟨fname, String.mk (Guid.guidUpperHex sig ++ Guid.fmtUpperHex age)⟩) ∧
    (∀ c, c ∈ Guid.guidUpperHex sig ++ Guid.fmtUpperHex age → Guid.isUpperHexDigit c) := by
  refine ⟨?_, ?_, ?_⟩
  · intro h
    unfold Guid.find_guid
    rw [himage, hdebug]
    simp only []
    rw [h]
  · intro h
    unfold Guid.find_guid
    rw [himage, hdebug]
    simp only []
    rw [h]
    simp only []
    rw [hfname]
  · intro c hc
    rw [List.mem_append] at hc
    rcases hc with hc | hc
    · exact guidUpperHex_isHex sig c hc
    · exact fmtUpperHex_isHex age c hc

/-- The GUID string produced for the concrete signature: uppercase hex
of the signature followed by the age, with no separators. -/
theorem guid_string_value :
    String.mk (Guid.guidUpperHex Guid.cexSig ++ Guid.fmtUpperHex 2) =
      "3844DBB920174967BE7AA4A2C20430FA2" := by
  decide

/-- Witness for C6 at `cexGuidEnv` (single Cv70 entry, age 2). -/
theorem spec_C6_guid_extraction_witness :
    (Guid.cexGuidEnv.image = .ok () ∧
      Guid.cexGuidEnv.debug = .ok [.cv70 Guid.cexSig 2] ∧
      Guid.cexGuidEnv.pdbFileName = some "ntkrnlmp.pdb") ∧
    ((([Guid.DebugEntry.cv70 Guid.cexSig 2].filterMap Guid.asCodeView).head? =
        some .cv20 →
      Guid.find_guid Guid.cexGuidEnv =
        .error ⟨.invalidExeFile, "invalid code_view entry version 2 found, expected 7"⟩) ∧
    (([Guid.DebugEntry.cv70 Guid.cexSig 2].filterMap Guid.asCodeView).head? =
        some (.cv70 Guid.cexSig 2) →
      Guid.find_guid Guid.cexGuidEnv =
        .ok ⟨"ntkrnlmp.pdb",
          String.mk (Guid.guidUpperHex Guid.cexSig ++ Guid.fmtUpperHex 2)⟩) ∧
    (∀ c, c ∈ Guid.guidUpperHex Guid.cexSig ++ Guid.fmtUpperHex 2 →
      Guid.isUpperHexDigit c)) :=
  ⟨⟨rfl, rfl, rfl⟩,
    spec_C6_guid_extraction Guid.cexGuidEnv [.cv70 Guid.cexSig 2] "ntkrnlmp.pdb"
      Guid.cexSig 2 rfl rfl rfl⟩

/-! ## Claim C7 : the symbol store fetch protocol -/

/-- C7 counterexample: a body-length mismatch (`Content-Length: 10`,
5-byte body) and a missing `Content-Length` header both abort through
an assertion (modelled `panicked`) instead of surfacing an Http-kind
error as the claim states. -/
theorem spec_C7_symstore_counterexample :
    SymStore.download SymStore.cexFetchMismatch SymStore.cexStore
      ⟨"ntkrnlmp.pdb", "ABC1"⟩ = .panicked ∧
    SymStore.download SymStore.cexFetchNoLen SymStore.cexStore
      ⟨"ntkrnlmp.pdb", "ABC1"⟩ = .panicked :=
  ⟨rfl, rfl⟩

/-- C7 (amended): the client requests
`{base_url}/{file_name}/{guid}/{file_name}` first and only on an error
result retries `{base_url}/{file_name}/{guid}/file.ptr`, not
propagating the first error; transport and body-read failures surface
as Http-kind errors; but a missing `Content-Length` header and a
body-length mismatch abort through `assert!` / `unwrap` /
`assert_eq!` (a panic, which the retry does not catch) rather than an
Http error. -/
theorem spec_C7_symstore_download (fetch : String → Except Unit SymStore.HttpResponse)
    (s : SymStore.SymbolStore) (g : Win32Guid) :
    (∀ b, SymStore.download_file fetch
        (s.base_url ++ "/" ++ g.file_name ++ "/" ++ g.guid ++ "/" ++ g.file_name) = .ok b →
      SymStore.download fetch s g = .ok b) ∧
    (∀ e, SymStore.download_file fetch
        (s.base_url ++ "/" ++ g.file_name ++ "/" ++ g.guid ++ "/" ++ g.file_name) = .err e →
      SymStore.download fetch s g = SymStore.download_file fetch
        (s.base_url ++ "/" ++ g.file_name ++ "/" ++ g.guid ++ "/" ++ "file.ptr")) ∧
    (SymStore.download_file fetch
        (s.base_url ++ "/" ++ g.file_name ++ "/" ++ g.guid ++ "/" ++ g.file_name) = .panicked →
      SymStore.download fetch s g = .panicked) ∧
    (∀ url e, SymStore.download_file fetch url = .err e → e.kind = .http) ∧
    (∀ url resp, fetch url = .ok resp → resp.contentLength = none →
      SymStore.download_file fetch url = .panicked) ∧
    (∀ url resp len buf, fetch url = .ok resp → resp.contentLength = some (some len) →
      resp.body = .ok buf → buf.length ≠ len →
      SymStore.download_file fetch url = .panicked) := by
  refine ⟨?_, ?_, ?_, ?_, ?_, ?_⟩
  · intro b h
    unfold SymStore.download
    simp only []
    rw [h]
  · intro e h
    unfold SymStore.download
    simp only []
    rw [h]
  · intro h
    unfold SymStore.download
    simp only []
    rw [h]
  · intro url e h
    unfold SymStore.download_file at h
    cases hfetch : fetch url with
    | error a =>
      rw [hfetch] at h
      simp only [] at h
      injection h with h
      rw [← h]
    | ok resp =>
      rw [hfetch] at h
      simp only [] at h
      cases hcl : resp.contentLength with
      | none =>
        rw [hcl] at h
        simp at h
      | some ocl =>
        cases ocl with
        | none =>
          rw [hcl] at h
          simp at h
        | some len =>
          rw [hcl] at h
          simp only [] at h
          cases hbody : resp.body with
          | error a =>
            rw [hbody] at h
            simp only [] at h
            injection h with h
            rw [← h]
          | ok buf =>
            rw [hbody] at h
            simp only [] at h
            by_cases hlen : buf.length = len
            · rw [if_pos hlen] at h
              simp at h
            · rw [if_neg hlen] at h
              simp at h
  · intro url resp hfetch hcl
    unfold SymStore.download_file
    rw [hfetch]
    simp only []
    rw [hcl]
  · intro url resp len buf hfetch hcl hbody hlen
    unfold SymStore.download_file
    rw [hfetch]
    simp only []
    rw [hcl]
    simp only []
    rw [hbody]
    simp only []
    rw [if_neg hlen]

/-! ## Claim C8 : the symbol store cache protocol -/

/-- C8: with a cache path configured, a hit at
`<cache_path>/<file_name>/<guid>` is returned without any download
attempt; a miss downloads once, writes exactly the downloaded bytes
at that path, and returns them; after `no_cache()` every load
downloads and neither reads nor writes the file system. -/
theorem spec_C8_symstore_cache (fetch : String → Except Unit SymStore.HttpResponse)
    (s : SymStore.SymbolStore) (g : Win32Guid) (fs : String → Option (List Nat))
    (cp : String) (hcp : s.cache_path = some cp) :
    (∀ b, fs (cp ++ "/" ++ g.file_name ++ "/" ++ g.guid) = some b →
      SymStore.load fetch s g fs = ⟨.ok b, fs, 0, 1⟩) ∧
    (fs (cp ++ "/" ++ g.file_name ++ "/" ++ g.guid) = none →
      ∀ b, SymStore.download fetch s g = .ok b →
        SymStore.load fetch s g fs =
          ⟨.ok b,
            fun p => if p = cp ++ "/" ++ g.file_name ++ "/" ++ g.guid then some b else fs p,
            1, 0⟩) ∧
    ((SymStore.no_cache s).cache_path = none ∧
      SymStore.load fetch (SymStore.no_cache s) g fs =
        ⟨SymStore.download fetch s g, fs, 1, 0⟩) := by
  refine ⟨?_, ?_, rfl, rfl⟩
  · intro b hb
    unfold SymStore.load
    rw [hcp]
    simp only []
    rw [hb]
  · intro hnone b hdl
    unfold SymStore.load
    rw [hcp]
    simp only []
    rw [hnone]
    simp only []
    rw [hdl]

/-- Witness for C8 at a concrete store, an empty file system and a
3-byte download. -/
theorem spec_C8_symstore_cache_witness :
    (SymStore.cexStore.cache_path = some "cache") ∧
    ((∀ b, (fun _ => (none : Option (List Nat)))
        ("cache" ++ "/" ++ "f.pdb" ++ "/" ++ "G1") = some b →
      SymStore.load SymStore.cexFetchOk SymStore.cexStore ⟨"f.pdb", "G1"⟩
        (fun _ => none) = ⟨.ok b, fun _ => none, 0, 1⟩) ∧
    ((fun _ => (none : Option (List Nat)))
        ("cache" ++ "/" ++ "f.pdb" ++ "/" ++ "G1") = none →
      ∀ b, SymStore.download SymStore.cexFetchOk SymStore.cexStore ⟨"f.pdb", "G1"⟩ = .ok b →
        SymStore.load SymStore.cexFetchOk SymStore.cexStore ⟨"f.pdb", "G1"⟩
          (fun _ => none) =
          ⟨.ok b,
            fun p => if p = "cache" ++ "/" ++ "f.pdb" ++ "/" ++ "G1" then some b
              else (fun _ => none) p,
            1, 0⟩) ∧
    ((SymStore.no_cache SymStore.cexStore).cache_path = none ∧
      SymStore.load SymStore.cexFetchOk (SymStore.no_cache SymStore.cexStore)
          ⟨"f.pdb", "G1"⟩ (fun _ => none) =
        ⟨SymStore.download SymStore.cexFetchOk SymStore.cexStore ⟨"f.pdb", "G1"⟩,
          fun _ => none, 1, 0⟩)) :=
  ⟨rfl, spec_C8_symstore_cache SymStore.cexFetchOk SymStore.cexStore ⟨"f.pdb", "G1"⟩
    (fun _ => none) "cache" rfl⟩

/-! ## Claim C9 : the x64 va-hint probe of the ntoskrnl locator -/

theorem and_high_mask {x : Nat} (hx : x < 2 ^ 64) :
    x &&& (2 ^ 64 - 0x20000) = x / 0x20000 * 0x20000 := by
  have hmask : (2 ^ 64 - 0x20000 : Nat) = (2 ^ 47 - 1) <<< 17 := by
    rw [Nat.shiftLeft_eq]
    norm_num
  have hr : x / 0x20000 * 0x20000 = (x >>> 17) <<< 17 := by
    rw [Nat.shiftRight_eq_div_pow, Nat.shiftLeft_eq]
  rw [hmask, hr]
  apply Nat.eq_of_testBit_eq
  intro i
  rw [Nat.testBit_and, Nat.testBit_shiftLeft, Nat.testBit_shiftLeft,
    Nat.testBit_shiftRight, Nat.testBit_two_pow_sub_one]
  by_cases h17 : 17 ≤ i
  · rw [decide_eq_true h17]
    simp only [Bool.true_and]
    by_cases h64 : i < 64
    · rw [decide_eq_true (by omega : i - 17 < 47),
        (by omega : 17 + (i - 17) = i)]
      simp
    · rw [decide_eq_false (by omega : ¬(i - 17 < 47)),
        (by omega : 17 + (i - 17) = i)]
      simp only [Bool.and_false]
      symm
      exact Nat.testBit_lt_two_pow
        (lt_of_lt_of_le hx (Nat.pow_le_pow_right (by norm_num) (by omega)))
  · rw [decide_eq_false h17]
    simp

theorem find?_range_eq_some_iff (p : Nat → Bool) :
    ∀ (n x : Nat), ((List.range n).find? p = some x ↔
      x < n ∧ p x = true ∧ ∀ j, j < x → p j = false) := by
  intro n
  induction n with
  | zero => intro x; simp
  | succ n ih =>
    intro x
    rw [List.range_succ, List.find?_append]
    rcases hfn : (List.range n).find? p with _ | y
    · rw [Option.none_or]
      have hall : ∀ j, j < n → p j = false := by
        intro j hj
        exact Bool.eq_false_iff.mpr
          (List.find?_eq_none.mp hfn j (List.mem_range.mpr hj))
      constructor
      · intro h
        by_cases hpn : p n = true
        · rw [List.find?_cons_of_pos _ hpn] at h
          injection h with h
          subst h
          exact ⟨Nat.lt_succ_self _, hpn, hall⟩
        · rw [List.find?_cons_of_neg _ hpn] at h
          simp at h
      · rintro ⟨hx, hpx, hprev⟩
        have hxn : x = n := by
          by_contra hne
          have hxlt : x < n := by omega
          rw [hall x hxlt] at hpx
          exact absurd hpx (by simp)
        subst hxn
        rw [List.find?_cons_of_pos _ hpx]
    · rw [Option.or_some]
      obtain ⟨hyn, hpy, hyprev⟩ := (ih y).mp hfn
      constructor
      · intro h
        injection h with h
        subst h
        exact ⟨by omega, hpy, hyprev⟩
      · rintro ⟨hx, hpx, hprev⟩
        have hxy : x = y := by
          by_contra hne
          rcases Nat.lt_or_ge x y with hlt | hge
          · rw [hyprev x hlt] at hpx
            exact absurd hpx (by simp)
          · have hyx : y < x := by omega
            rw [hprev y hyx] at hpy
            exact absurd hpy (by simp)
        rw [hxy]

theorem vaHintLoop_step (env : Nat → NtosX64.PageInfo) (hint fuel va : Nat)
    (rest : List Nat) (hcond : va + NtosX64.mb 16 > hint)
    (hrec : NtosX64.findWithVaHintLoop env hint fuel (va - NtosX64.mb 2) =
      NtosX64.probeFirst env rest) :
    NtosX64.findWithVaHintLoop env hint (fuel + 1) va =
      NtosX64.probeFirst env (va :: rest) := by
  rw [NtosX64.findWithVaHintLoop, if_pos hcond, NtosX64.probeFirst]
  cases hfv : NtosX64.find_with_va env va with
  | ok a => rfl
  | error e => exact hrec

theorem vaHintLoop_end (env : Nat → NtosX64.PageInfo) (hint fuel va : Nat)
    (hcond : ¬(va + NtosX64.mb 16 > hint)) :
    NtosX64.findWithVaHintLoop env hint (fuel + 1) va =
      NtosX64.probeFirst env [] := by
  rw [NtosX64.findWithVaHintLoop, if_neg hcond]
  rfl

theorem vaHintLoop_eq_probe (env : Nat → NtosX64.PageInfo) (hint : Nat) :
    ∀ (m va fuel : Nat), m < fuel →
      (∀ t, t < m → va - t * NtosX64.mb 2 + NtosX64.mb 16 > hint) →
      ¬(va - m * NtosX64.mb 2 + NtosX64.mb 16 > hint) →
      NtosX64.findWithVaHintLoop env hint fuel va =
        NtosX64.probeFirst env ((List.range m).map fun k => va - k * NtosX64.mb 2) := by
  intro m
  induction m with
  | zero =>
    intro va fuel hfuel hconds hstop
    rcases fuel with _ | fuel
    · omega
    · rw [List.range_zero, List.map_nil]
      exact vaHintLoop_end env hint fuel va (by simpa using hstop)
  | succ m ih =>
    intro va fuel hfuel hconds hstop
    rcases fuel with _ | fuel
    · omega
    · have hshift : ∀ t, va - (t + 1) * NtosX64.mb 2 =
          va - NtosX64.mb 2 - t * NtosX64.mb 2 := by
        intro t
        rw [Nat.sub_sub]
        congr 1
        ring
      have hcond0 : va + NtosX64.mb 16 > hint := by
        have h0 := hconds 0 (Nat.succ_pos m)
        simpa using h0
      have hrec : NtosX64.findWithVaHintLoop env hint fuel (va - NtosX64.mb 2) =
          NtosX64.probeFirst env
            ((List.range m).map fun k => va - NtosX64.mb 2 - k * NtosX64.mb 2) := by
        apply ih
        · omega
        · intro t ht
          have h1 := hconds (t + 1) (by omega)
          rw [hshift t] at h1
          exact h1
        · rw [← hshift m]
          exact hstop
      have hstep := vaHintLoop_step env hint fuel va
        ((List.range m).map fun k => va - NtosX64.mb 2 - k * NtosX64.mb 2) hcond0 hrec
      rw [hstep]
      congr 1
      rw [List.range_succ_eq_map, List.map_cons, List.map_map]
      exact congrArg₂ List.cons (by simp)
        (List.map_congr_left (fun k _ => (hshift k).symm))

theorem find?_filter_range_some_iff (p q : Nat → Bool) (n x : Nat) :
    ((((List.range n).filter p).find? q = some x) ↔
      (x < n ∧ p x = true ∧ q x = true ∧ ∀ j, j < x → ¬(p j = true ∧ q j = true))) := by
  rw [List.find?_filter, find?_range_eq_some_iff]
  constructor
  · rintro ⟨hx, hpx, hprev⟩
    simp only [decide_eq_true_eq] at hpx
    refine ⟨hx, hpx.1, hpx.2, ?_⟩
    intro j hj
    simpa only [decide_eq_false_iff_not] using hprev j hj
  · rintro ⟨hx, hpx, hqx, hprev⟩
    refine ⟨hx, ?_, ?_⟩
    · simp only [decide_eq_true_eq]
      exact ⟨hpx, hqx⟩
    · intro j hj
      simpa only [decide_eq_false_iff_not] using hprev j hj

theorem find?_filter_range_none_iff (p q : Nat → Bool) (n : Nat) :
    ((((List.range n).filter p).find? q = none) ↔
      ∀ j, j < n → ¬(p j = true ∧ q j = true)) := by
  rw [List.find?_filter, List.find?_eq_none]
  constructor
  · intro h j hj
    have hmem := h j (List.mem_range.mpr hj)
    simp only [decide_eq_true_eq] at hmem
    exact hmem
  · intro h x hx
    simp only [decide_eq_true_eq]
    exact h x (List.mem_range.mp hx)

/-- C9: on 64-bit targets `ntos::find` runs the va-hint probe first
(and only when the hint is non-null), falling back to the page-map
scan on its failure; the probe starts at `kernel_hint & !0x1ffff`
(the 0x20000-aligned floor of the hint) and, while
`va_base + 16 MiB > kernel_hint`, probes 2 MiB windows stepping down
by 2 MiB — exactly the eight bases `align - k*2MiB`, `k < 8` — and
within a window accepts the first page-aligned candidate with
`e_magic = MZ`, `e_lfanew ≤ 0x800` and PE export name
`ntoskrnl.exe`. -/
theorem spec_C9_ntos_find (env : Nat → NtosX64.PageInfo)
    (x64r x86r : Except Win32Error (Nat × Nat)) (sb : StartBlock)
    (h64 : NtosX64.archBits sb.arch = 64) :
    (sb.kernel_hint ≠ 0 →
      (∀ b, NtosX64.find_with_va_hint env sb = .ok b →
        NtosX64.ntosFind env x64r x86r sb = .ok b) ∧
      (∀ e, NtosX64.find_with_va_hint env sb = .error e →
        NtosX64.ntosFind env x64r x86r sb =
          match x64r with
          | .ok b => .ok b
          | .error _ => .error ⟨.processNotFound, "unable to find ntoskrnl.exe"⟩)) ∧
    (sb.kernel_hint = 0 →
      NtosX64.ntosFind env x64r x86r sb =
        match x64r with
        | .ok b => .ok b
        | .error _ => .error ⟨.processNotFound, "unable to find ntoskrnl.exe"⟩) ∧
    ((sb.kernel_hint &&& (2 ^ 64 - 0x20000)) = sb.kernel_hint / 0x20000 * 0x20000 →
      0x2000000 ≤ sb.kernel_hint → sb.kernel_hint < 2 ^ 64 →
      NtosX64.find_with_va_hint env sb =
        NtosX64.probeFirst env ((List.range 8).map
          fun k => (sb.kernel_hint &&& (2 ^ 64 - 0x20000)) - k * NtosX64.mb 2)) ∧
    (sb.kernel_hint < 2 ^ 64 →
      (sb.kernel_hint &&& (2 ^ 64 - 0x20000)) = sb.kernel_hint / 0x20000 * 0x20000) ∧
    (∀ va a, NtosX64.find_with_va env va = .ok a ↔
      ∃ i, i < 512 ∧ a = va + i * 0x1000 ∧
        (env (va + i * 0x1000)).e_magic = 0x5a4d ∧
        (env (va + i * 0x1000)).e_lfanew ≤ 0x800 ∧
        (env (va + i * 0x1000)).peName.getD "" = "ntoskrnl.exe" ∧
        ∀ j, j < i →
          ¬((env (va + j * 0x1000)).e_magic = 0x5a4d ∧
            (env (va + j * 0x1000)).e_lfanew ≤ 0x800 ∧
            (env (va + j * 0x1000)).peName.getD "" = "ntoskrnl.exe")) := by
  refine ⟨?_, ?_, ?_, fun hx => and_high_mask hx, ?_⟩
  · intro hh
    constructor
    · intro b hb
      unfold NtosX64.ntosFind
      rw [if_pos h64, if_pos hh, hb]
    · intro e he
      unfold NtosX64.ntosFind
      rw [if_pos h64, if_pos hh, he]
  · intro hh
    unfold NtosX64.ntosFind
    rw [if_pos h64, if_neg (by simp [hh])]
  · intro halign hlo hhi
    have hgt : sb.kernel_hint <
        (sb.kernel_hint &&& (2 ^ 64 - 0x20000)) + 0x20000 := by
      rw [halign]
      have h1 := Nat.div_add_mod sb.kernel_hint 0x20000
      have h2 : sb.kernel_hint % 0x20000 < 0x20000 := Nat.mod_lt _ (by norm_num)
      omega
    have hle : sb.kernel_hint &&& (2 ^ 64 - 0x20000) ≤ sb.kernel_hint := by
      rw [halign]
      exact Nat.div_mul_le_self _ _
    unfold NtosX64.find_with_va_hint
    apply vaHintLoop_eq_probe env sb.kernel_hint 8
      (sb.kernel_hint &&& (2 ^ 64 - 0x20000)) 16 (by omega)
    · intro t ht
      simp only [NtosX64.mb]
      simp only [NtosX64.mb] at hgt hle
      omega
    · simp only [NtosX64.mb]
      simp only [NtosX64.mb] at hgt hle
      omega
  · intro va a
    unfold NtosX64.find_with_va
    rcases hres : ((List.range 512).filter fun i =>
        (env (va + i * 0x1000)).e_magic == 0x5a4d &&
          decide ((env (va + i * 0x1000)).e_lfanew ≤ 0x800)).find?
        (fun i => ((env (va + i * 0x1000)).peName.getD "") == "ntoskrnl.exe") with _ | i
    · constructor
      · intro h
        exact absurd h (by simp)
      · rintro ⟨i, hi, ha, hm, hl, hn, -⟩
        have hall := (find?_filter_range_none_iff _ _ 512).mp hres i hi
        refine absurd ⟨?_, ?_⟩ hall
        · simp only [Bool.and_eq_true, beq_iff_eq, decide_eq_true_eq]
          exact ⟨hm, hl⟩
        · simp only [beq_iff_eq]
          exact hn
    · obtain ⟨hin, hpi, hqi, hprev⟩ := (find?_filter_range_some_iff _ _ 512 i).mp hres
      simp only [Bool.and_eq_true, beq_iff_eq, decide_eq_true_eq] at hpi hqi
      constructor
      · intro h
        injection h with h
        refine ⟨i, hin, h.symm, hpi.1, hpi.2, hqi, ?_⟩
        intro j hj hc
        refine hprev j hj ⟨?_, ?_⟩
        · simp only [Bool.and_eq_true, beq_iff_eq, decide_eq_true_eq]
          exact ⟨hc.1, hc.2.1⟩
        · simp only [beq_iff_eq]
          exact hc.2.2
      · rintro ⟨i2, hi2, ha2, hm2, hl2, hn2, hprev2⟩
        have hii : i2 = i := by
          by_contra hne
          rcases Nat.lt_or_ge i2 i with hlt | hge
          · refine hprev i2 hlt ⟨?_, ?_⟩
            · simp only [Bool.and_eq_true, beq_iff_eq, decide_eq_true_eq]
              exact ⟨hm2, hl2⟩
            · simp only [beq_iff_eq]
              exact hn2
          · exact hprev2 i (by omega) ⟨hpi.1, hpi.2, hqi⟩
        subst hii
        rw [ha2]

/-- Witness for C9 at a concrete 64-bit start block with hint
`0x2000000` and a candidate-free memory view. -/
theorem spec_C9_ntos_find_witness :
    (NtosX64.archBits (StartBlock.mk .x64 0x2000000 5).arch = 64) ∧
    (((StartBlock.mk .x64 0x2000000 5).kernel_hint ≠ 0 →
      (∀ b, NtosX64.find_with_va_hint NtosX64.cexPageEnv ⟨.x64, 0x2000000, 5⟩ = .ok b →
        NtosX64.ntosFind NtosX64.cexPageEnv (.error ⟨.notFound, "pm"⟩)
          (.error ⟨.notFound, "pm32"⟩) ⟨.x64, 0x2000000, 5⟩ = .ok b) ∧
      (∀ e, NtosX64.find_with_va_hint NtosX64.cexPageEnv ⟨.x64, 0x2000000, 5⟩ = .error e →
        NtosX64.ntosFind NtosX64.cexPageEnv (.error ⟨.notFound, "pm"⟩)
          (.error ⟨.notFound, "pm32"⟩) ⟨.x64, 0x2000000, 5⟩ =
          match (Except.error ⟨.notFound, "pm"⟩ : Except Win32Error (Nat × Nat)) with
          | .ok b => .ok b
          | .error _ => .error ⟨.processNotFound, "unable to find ntoskrnl.exe"⟩)) ∧
    ((StartBlock.mk .x64 0x2000000 5).kernel_hint = 0 →
      NtosX64.ntosFind NtosX64.cexPageEnv (.error ⟨.notFound, "pm"⟩)
        (.error ⟨.notFound, "pm32"⟩) ⟨.x64, 0x2000000, 5⟩ =
        match (Except.error ⟨.notFound, "pm"⟩ : Except Win32Error (Nat × Nat)) with
        | .ok b => .ok b
        | .error _ => .error ⟨.processNotFound, "unable to find ntoskrnl.exe"⟩) ∧
    (((StartBlock.mk .x64 0x2000000 5).kernel_hint &&& (2 ^ 64 - 0x20000)) =
        (StartBlock.mk .x64 0x2000000 5).kernel_hint / 0x20000 * 0x20000 →
      0x2000000 ≤ (StartBlock.mk .x64 0x2000000 5).kernel_hint →
      (StartBlock.mk .x64 0x2000000 5).kernel_hint < 2 ^ 64 →
      NtosX64.find_with_va_hint NtosX64.cexPageEnv ⟨.x64, 0x2000000, 5⟩ =
        NtosX64.probeFirst NtosX64.cexPageEnv ((List.range 8).map
          fun k => ((StartBlock.mk .x64 0x2000000 5).kernel_hint &&& (2 ^ 64 - 0x20000)) -
            k * NtosX64.mb 2)) ∧
    ((StartBlock.mk .x64 0x2000000 5).kernel_hint < 2 ^ 64 →
      ((StartBlock.mk .x64 0x2000000 5).kernel_hint &&& (2 ^ 64 - 0x20000)) =
        (StartBlock.mk .x64 0x2000000 5).kernel_hint / 0x20000 * 0x20000) ∧
    (∀ va a, NtosX64.find_with_va NtosX64.cexPageEnv va = .ok a ↔
      ∃ i, i < 512 ∧ a = va + i * 0x1000 ∧
        (NtosX64.cexPageEnv (va + i * 0x1000)).e_magic = 0x5a4d ∧
        (NtosX64.cexPageEnv (va + i * 0x1000)).e_lfanew ≤ 0x800 ∧
        (NtosX64.cexPageEnv (va + i * 0x1000)).peName.getD "" = "ntoskrnl.exe" ∧
        ∀ j, j < i →
          ¬((NtosX64.cexPageEnv (va + j * 0x1000)).e_magic = 0x5a4d ∧
            (NtosX64.cexPageEnv (va + j * 0x1000)).e_lfanew ≤ 0x800 ∧
            (NtosX64.cexPageEnv (va + j * 0x1000)).peName.getD "" = "ntoskrnl.exe"))) :=
  ⟨rfl, spec_C9_ntos_find NtosX64.cexPageEnv (.error ⟨.notFound, "pm"⟩)
    (.error ⟨.notFound, "pm32"⟩) ⟨.x64, 0x2000000, 5⟩ rfl⟩

/-! ## C1 : `Win32Offsets::from_pdb_slice` required/optional resolution -/

theorem exceptBindOk {ε α β : Type _} (a : α) (f : α → Except ε β) :
    (Except.ok a >>= f) = f a := rfl

theorem exceptBindErr {ε α β : Type _} (e : ε) (f : α → Except ε β) :
    ((Except.error e : Except ε α) >>= f) = Except.error e := rfl

theorem exceptMapOk {ε α β : Type _} (a : α) (f : α → β) :
    (Except.ok a : Except ε α).map f = Except.ok (f a) := rfl

theorem exceptMapErr {ε α β : Type _} (e : ε) (f : α → β) :
    (Except.error e : Except ε α).map f = Except.error e := rfl

theorem exceptThrowEq {ε α : Type _} (e : ε) :
    (throw e : Except ε α) = Except.error e := rfl

theorem exceptPureEq {ε α : Type _} (a : α) :
    (pure a : Except ε α) = Except.ok a := rfl

/-- C1: `from_pdb_slice` resolves optional items by name fallback and
never fails on them: `phys_mem_block` falls back from
`MmPhysicalMemoryBlock` to `_MmPhysicalMemoryBlock` and then `0`,
`eproc_wow64` from `WoW64Process` to `Wow64Process` and then `0`,
`mmvad.vad_node` from `VadNode` to `LeftChild` and then `0`, the vpn
fields, `u` and the protection bit default to `0`, and a missing
`_TEB32` struct makes `teb_peb_x86` zero; whereas a missing required
struct, or a missing required field of a present struct, yields an
`Offset`-kind error whose message names that exact struct or field. -/
theorem spec_C1_pdb_offset_resolution (pdb : Offsets.PdbData)
    (hsym : pdb.hasSymbols = true) :
    (Offsets.requiredPresent pdb →
      ∃ t, Offsets.from_pdb_slice pdb = Except.ok t ∧
        t.phys_mem_block =
          ((pdb.findSymbol "MmPhysicalMemoryBlock").or
            (pdb.findSymbol "_MmPhysicalMemoryBlock")).getD 0 ∧
        (∀ est, pdb.structs "_EPROCESS" = some est →
          t.eproc_wow64 =
            (((est "WoW64Process").or (est "Wow64Process")).map (·.offset)).getD 0) ∧
        (∀ mv, pdb.structs "_MMVAD_SHORT" = some mv →
          t.mmvad.vad_node =
            (((mv "VadNode").or (mv "LeftChild")).map (·.offset)).getD 0 ∧
          t.mmvad.starting_vpn = ((mv "StartingVpn").map (·.offset)).getD 0 ∧
          t.mmvad.ending_vpn = ((mv "EndingVpn").map (·.offset)).getD 0 ∧
          t.mmvad.starting_vpn_high = ((mv "StartingVpnHigh").map (·.offset)).getD 0 ∧
          t.mmvad.ending_vpn_high = ((mv "EndingVpnHigh").map (·.offset)).getD 0 ∧
          t.mmvad.u = ((mv "u").map (·.offset)).getD 0) ∧
        (∀ mvf, pdb.structs "_MMVAD_FLAGS" = some mvf →
          t.mmvad.protection_bit = ((mvf "Protection").map (·.bit_offset)).getD 0) ∧
        (pdb.structs "_TEB32" = none → t.teb_peb_x86 = 0)) ∧
    (¬Offsets.requiredPresent pdb →
      ∃ msg, Offsets.from_pdb_slice pdb = Except.error ⟨ErrKind.offset, msg⟩ ∧
        Offsets.missingDiag pdb msg) := by
  rcases hLIST : pdb.structs "_LIST_ENTRY" with _ | list
  · refine ⟨fun hreq => absurd (hreq.1 "_LIST_ENTRY" (by decide))
        (by simp [Offsets.structOk, hLIST]),
      fun _ => ⟨"_LIST_ENTRY" ++ " not found", ?_,
        Or.inl ⟨"_LIST_ENTRY", by decide, hLIST, rfl⟩⟩⟩
    simp only [Offsets.from_pdb_slice, Offsets.fromPdbStructs, Offsets.reqStruct, hsym, hLIST,
      exceptBindOk, exceptBindErr, exceptThrowEq]
  rcases hKPROC : pdb.structs "_KPROCESS" with _ | kproc
  · refine ⟨fun hreq => absurd (hreq.1 "_KPROCESS" (by decide))
        (by simp [Offsets.structOk, hKPROC]),
      fun _ => ⟨"_KPROCESS" ++ " not found", ?_,
        Or.inl ⟨"_KPROCESS", by decide, hKPROC, rfl⟩⟩⟩
    simp only [Offsets.from_pdb_slice, Offsets.fromPdbStructs, Offsets.reqStruct, hsym, hLIST, hKPROC,
      exceptBindOk, exceptBindErr, exceptThrowEq]
  rcases hEPROC : pdb.structs "_EPROCESS" with _ | eproc
  · refine ⟨fun hreq => absurd (hreq.1 "_EPROCESS" (by decide))
        (by simp [Offsets.structOk, hEPROC]),
      fun _ => ⟨"_EPROCESS" ++ " not found", ?_,
        Or.inl ⟨"_EPROCESS", by decide, hEPROC, rfl⟩⟩⟩
    simp only [Offsets.from_pdb_slice, Offsets.fromPdbStructs, Offsets.reqStruct, hsym, hLIST, hKPROC, hEPROC,
      exceptBindOk, exceptBindErr, exceptThrowEq]
  rcases hETHR : pdb.structs "_ETHREAD" with _ | ethread
  · refine ⟨fun hreq => absurd (hreq.1 "_ETHREAD" (by decide))
        (by simp [Offsets.structOk, hETHR]),
      fun _ => ⟨"_ETHREAD" ++ " not found", ?_,
        Or.inl ⟨"_ETHREAD", by decide, hETHR, rfl⟩⟩⟩
    simp only [Offsets.from_pdb_slice, Offsets.fromPdbStructs, Offsets.reqStruct, hsym, hLIST, hKPROC, hEPROC, hETHR,
      exceptBindOk, exceptBindErr, exceptThrowEq]
  rcases hKTHR : pdb.structs "_KTHREAD" with _ | kthread
  · refine ⟨fun hreq => absurd (hreq.1 "_KTHREAD" (by decide))
        (by simp [Offsets.structOk, hKTHR]),
      fun _ => ⟨"_KTHREAD" ++ " not found", ?_,
        Or.inl ⟨"_KTHREAD", by decide, hKTHR, rfl⟩⟩⟩
    simp only [Offsets.from_pdb_slice, Offsets.fromPdbStructs, Offsets.reqStruct, hsym, hLIST, hKPROC, hEPROC, hETHR,
      hKTHR, exceptBindOk, exceptBindErr, exceptThrowEq]
  rcases hTEB : pdb.structs "_TEB" with _ | teb
  · refine ⟨fun hreq => absurd (hreq.1 "_TEB" (by decide))
        (by simp [Offsets.structOk, hTEB]),
      fun _ => ⟨"_TEB" ++ " not found", ?_,
        Or.inl ⟨"_TEB", by decide, hTEB, rfl⟩⟩⟩
    simp only [Offsets.from_pdb_slice, Offsets.fromPdbStructs, Offsets.reqStruct, hsym, hLIST, hKPROC, hEPROC, hETHR,
      hKTHR, hTEB, exceptBindOk, exceptBindErr, exceptThrowEq]
  rcases hMMVAD : pdb.structs "_MMVAD_SHORT" with _ | mm_vad
  · refine ⟨fun hreq => absurd (hreq.1 "_MMVAD_SHORT" (by decide))
        (by simp [Offsets.structOk, hMMVAD]),
      fun _ => ⟨"_MMVAD_SHORT" ++ " not found", ?_,
        Or.inl ⟨"_MMVAD_SHORT", by decide, hMMVAD, rfl⟩⟩⟩
    simp only [Offsets.from_pdb_slice, Offsets.fromPdbStructs, Offsets.reqStruct, hsym, hLIST, hKPROC, hEPROC, hETHR,
      hKTHR, hTEB, hMMVAD, exceptBindOk, exceptBindErr, exceptThrowEq]
  rcases hMMVF : pdb.structs "_MMVAD_FLAGS" with _ | mm_vad_flags
  · refine ⟨fun hreq => absurd (hreq.1 "_MMVAD_FLAGS" (by decide))
        (by simp [Offsets.structOk, hMMVF]),
      fun _ => ⟨"_MMVAD_FLAGS" ++ " not found", ?_,
        Or.inl ⟨"_MMVAD_FLAGS", by decide, hMMVF, rfl⟩⟩⟩
    simp only [Offsets.from_pdb_slice, Offsets.fromPdbStructs, Offsets.reqStruct, hsym, hLIST, hKPROC, hEPROC, hETHR,
      hKTHR, hTEB, hMMVAD, hMMVF, exceptBindOk, exceptBindErr, exceptThrowEq]
  rcases hfB : list "Blink" with _ | fB
  · refine ⟨fun hreq => absurd (hreq.2 ("_LIST_ENTRY", "Blink") (by decide))
        (by simp [Offsets.fieldOk, hLIST, hfB]),
      fun _ => ⟨"_LIST_ENTRY" ++ "::" ++ "Blink" ++ " not found", ?_,
        Or.inr ⟨("_LIST_ENTRY", "Blink"), by decide, ⟨list, hLIST, hfB⟩, rfl⟩⟩⟩
    simp only [Offsets.from_pdb_slice, Offsets.fromPdbStructs, Offsets.reqStruct, Offsets.reqField, hsym, hLIST, hKPROC,
      hEPROC, hETHR, hKTHR, hTEB, hMMVAD, hMMVF, hfB,
      exceptBindOk, exceptBindErr, exceptThrowEq]
  rcases hfAL : eproc "ActiveProcessLinks" with _ | fAL
  · refine ⟨fun hreq => absurd (hreq.2 ("_EPROCESS", "ActiveProcessLinks") (by decide))
        (by simp [Offsets.fieldOk, hEPROC, hfAL]),
      fun _ => ⟨"_EPROCESS" ++ "::" ++ "ActiveProcessLinks" ++ " not found", ?_,
        Or.inr ⟨("_EPROCESS", "ActiveProcessLinks"), by decide, ⟨eproc, hEPROC, hfAL⟩, rfl⟩⟩⟩
    simp only [Offsets.from_pdb_slice, Offsets.fromPdbStructs, Offsets.reqStruct, Offsets.reqField, hsym, hLIST, hKPROC,
      hEPROC, hETHR, hKTHR, hTEB, hMMVAD, hMMVF, hfB, hfAL,
      exceptBindOk, exceptBindErr, exceptThrowEq]
  rcases hfDTB : kproc "DirectoryTableBase" with _ | fDTB
  · refine ⟨fun hreq => absurd (hreq.2 ("_KPROCESS", "DirectoryTableBase") (by decide))
        (by simp [Offsets.fieldOk, hKPROC, hfDTB]),
      fun _ => ⟨"_KPROCESS" ++ "::" ++ "DirectoryTableBase" ++ " not found", ?_,
        Or.inr ⟨("_KPROCESS", "DirectoryTableBase"), by decide, ⟨kproc, hKPROC, hfDTB⟩, rfl⟩⟩⟩
    simp only [Offsets.from_pdb_slice, Offsets.fromPdbStructs, Offsets.reqStruct, Offsets.reqField, hsym, hLIST, hKPROC,
      hEPROC, hETHR, hKTHR, hTEB, hMMVAD, hMMVF, hfB, hfAL, hfDTB,
      exceptBindOk, exceptBindErr, exceptThrowEq]
  rcases hfPID : eproc "UniqueProcessId" with _ | fPID
  · refine ⟨fun hreq => absurd (hreq.2 ("_EPROCESS", "UniqueProcessId") (by decide))
        (by simp [Offsets.fieldOk, hEPROC, hfPID]),
      fun _ => ⟨"_EPROCESS" ++ "::" ++ "UniqueProcessId" ++ " not found", ?_,
        Or.inr ⟨("_EPROCESS", "UniqueProcessId"), by decide, ⟨eproc, hEPROC, hfPID⟩, rfl⟩⟩⟩
    simp only [Offsets.from_pdb_slice, Offsets.fromPdbStructs, Offsets.reqStruct, Offsets.reqField, hsym, hLIST, hKPROC,
      hEPROC, hETHR, hKTHR, hTEB, hMMVAD, hMMVF, hfB, hfAL, hfDTB, hfPID,
      exceptBindOk, exceptBindErr, exceptThrowEq]
  rcases hfNAME : eproc "ImageFileName" with _ | fNAME
  · refine ⟨fun hreq => absurd (hreq.2 ("_EPROCESS", "ImageFileName") (by decide))
        (by simp [Offsets.fieldOk, hEPROC, hfNAME]),
      fun _ => ⟨"_EPROCESS" ++ "::" ++ "ImageFileName" ++ " not found", ?_,
        Or.inr ⟨("_EPROCESS", "ImageFileName"), by decide, ⟨eproc, hEPROC, hfNAME⟩, rfl⟩⟩⟩
    simp only [Offsets.from_pdb_slice, Offsets.fromPdbStructs, Offsets.reqStruct, Offsets.reqField, hsym, hLIST, hKPROC,
      hEPROC, hETHR, hKTHR, hTEB, hMMVAD, hMMVF, hfB, hfAL, hfDTB, hfPID, hfNAME,
      exceptBindOk, exceptBindErr, exceptThrowEq]
  rcases hfPEB : eproc "Peb" with _ | fPEB
  · refine ⟨fun hreq => absurd (hreq.2 ("_EPROCESS", "Peb") (by decide))
        (by simp [Offsets.fieldOk, hEPROC, hfPEB]),
      fun _ => ⟨"_EPROCESS" ++ "::" ++ "Peb" ++ " not found", ?_,
        Or.inr ⟨("_EPROCESS", "Peb"), by decide, ⟨eproc, hEPROC, hfPEB⟩, rfl⟩⟩⟩
    simp only [Offsets.from_pdb_slice, Offsets.fromPdbStructs, Offsets.reqStruct, Offsets.reqField, hsym, hLIST, hKPROC,
      hEPROC, hETHR, hKTHR, hTEB, hMMVAD, hMMVF, hfB, hfAL, hfDTB, hfPID, hfNAME, hfPEB,
      exceptBindOk, exceptBindErr, exceptThrowEq]
  rcases hfSEC : eproc "SectionBaseAddress" with _ | fSEC
  · refine ⟨fun hreq => absurd (hreq.2 ("_EPROCESS", "SectionBaseAddress") (by decide))
        (by simp [Offsets.fieldOk, hEPROC, hfSEC]),
      fun _ => ⟨"_EPROCESS" ++ "::" ++ "SectionBaseAddress" ++ " not found", ?_,
        Or.inr ⟨("_EPROCESS", "SectionBaseAddress"), by decide, ⟨eproc, hEPROC, hfSEC⟩, rfl⟩⟩⟩
    simp only [Offsets.from_pdb_slice, Offsets.fromPdbStructs, Offsets.reqStruct, Offsets.reqField, hsym, hLIST, hKPROC,
      hEPROC, hETHR, hKTHR, hTEB, hMMVAD, hMMVF, hfB, hfAL, hfDTB, hfPID, hfNAME, hfPEB,
      hfSEC, exceptBindOk, exceptBindErr, exceptThrowEq]
  rcases hfEXIT : eproc "ExitStatus" with _ | fEXIT
  · refine ⟨fun hreq => absurd (hreq.2 ("_EPROCESS", "ExitStatus") (by decide))
        (by simp [Offsets.fieldOk, hEPROC, hfEXIT]),
      fun _ => ⟨"_EPROCESS" ++ "::" ++ "ExitStatus" ++ " not found", ?_,
        Or.inr ⟨("_EPROCESS", "ExitStatus"), by decide, ⟨eproc, hEPROC, hfEXIT⟩, rfl⟩⟩⟩
    simp only [Offsets.from_pdb_slice, Offsets.fromPdbStructs, Offsets.reqStruct, Offsets.reqField, hsym, hLIST, hKPROC,
      hEPROC, hETHR, hKTHR, hTEB, hMMVAD, hMMVF, hfB, hfAL, hfDTB, hfPID, hfNAME, hfPEB,
      hfSEC, hfEXIT, exceptBindOk, exceptBindErr, exceptThrowEq]
  rcases hfTL : eproc "ThreadListHead" with _ | fTL
  · refine ⟨fun hreq => absurd (hreq.2 ("_EPROCESS", "ThreadListHead") (by decide))
        (by simp [Offsets.fieldOk, hEPROC, hfTL]),
      fun _ => ⟨"_EPROCESS" ++ "::" ++ "ThreadListHead" ++ " not found", ?_,
        Or.inr ⟨("_EPROCESS", "ThreadListHead"), by decide, ⟨eproc, hEPROC, hfTL⟩, rfl⟩⟩⟩
    simp only [Offsets.from_pdb_slice, Offsets.fromPdbStructs, Offsets.reqStruct, Offsets.reqField, hsym, hLIST, hKPROC,
      hEPROC, hETHR, hKTHR, hTEB, hMMVAD, hMMVF, hfB, hfAL, hfDTB, hfPID, hfNAME, hfPEB,
      hfSEC, hfEXIT, hfTL, exceptBindOk, exceptBindErr, exceptThrowEq]
  rcases hfKTEB : kthread "Teb" with _ | fKTEB
  · refine ⟨fun hreq => absurd (hreq.2 ("_KTHREAD", "Teb") (by decide))
        (by simp [Offsets.fieldOk, hKTHR, hfKTEB]),
      fun _ => ⟨"_KTHREAD" ++ "::" ++ "Teb" ++ " not found", ?_,
        Or.inr ⟨("_KTHREAD", "Teb"), by decide, ⟨kthread, hKTHR, hfKTEB⟩, rfl⟩⟩⟩
    simp only [Offsets.from_pdb_slice, Offsets.fromPdbStructs, Offsets.reqStruct, Offsets.reqField, hsym, hLIST, hKPROC,
      hEPROC, hETHR, hKTHR, hTEB, hMMVAD, hMMVF, hfB, hfAL, hfDTB, hfPID, hfNAME, hfPEB,
      hfSEC, hfEXIT, hfTL, hfKTEB, exceptBindOk, exceptBindErr, exceptThrowEq]
  rcases hfTLE : ethread "ThreadListEntry" with _ | fTLE
  · refine ⟨fun hreq => absurd (hreq.2 ("_ETHREAD", "ThreadListEntry") (by decide))
        (by simp [Offsets.fieldOk, hETHR, hfTLE]),
      fun _ => ⟨"_ETHREAD" ++ "::" ++ "ThreadListEntry" ++ " not found", ?_,
        Or.inr ⟨("_ETHREAD", "ThreadListEntry"), by decide, ⟨ethread, hETHR, hfTLE⟩, rfl⟩⟩⟩
    simp only [Offsets.from_pdb_slice, Offsets.fromPdbStructs, Offsets.reqStruct, Offsets.reqField, hsym, hLIST, hKPROC,
      hEPROC, hETHR, hKTHR, hTEB, hMMVAD, hMMVF, hfB, hfAL, hfDTB, hfPID, hfNAME, hfPEB,
      hfSEC, hfEXIT, hfTL, hfKTEB, hfTLE, exceptBindOk, exceptBindErr, exceptThrowEq]
  rcases hfTPEB : teb "ProcessEnvironmentBlock" with _ | fTPEB
  · refine ⟨fun hreq => absurd (hreq.2 ("_TEB", "ProcessEnvironmentBlock") (by decide))
        (by simp [Offsets.fieldOk, hTEB, hfTPEB]),
      fun _ => ⟨"_TEB" ++ "::" ++ "ProcessEnvironmentBlock" ++ " not found", ?_,
        Or.inr ⟨("_TEB", "ProcessEnvironmentBlock"), by decide, ⟨teb, hTEB, hfTPEB⟩, rfl⟩⟩⟩
    simp only [Offsets.from_pdb_slice, Offsets.fromPdbStructs, Offsets.reqStruct, Offsets.reqField, hsym, hLIST, hKPROC,
      hEPROC, hETHR, hKTHR, hTEB, hMMVAD, hMMVF, hfB, hfAL, hfDTB, hfPID, hfNAME, hfPEB,
      hfSEC, hfEXIT, hfTL, hfKTEB, hfTLE, hfTPEB, exceptBindOk, exceptBindErr, exceptThrowEq]
  rcases hT32 : pdb.structs "_TEB32" with _ | teb32
  · rcases hfVR : eproc "VadRoot" with _ | fVR
    · refine ⟨fun hreq => absurd (hreq.2 ("_EPROCESS", "VadRoot") (by decide))
          (by simp [Offsets.fieldOk, hEPROC, hfVR]),
        fun _ => ⟨"_EPROCESS" ++ "::" ++ "VadRoot" ++ " not found", ?_,
          Or.inr ⟨("_EPROCESS", "VadRoot"), by decide, ⟨eproc, hEPROC, hfVR⟩, rfl⟩⟩⟩
      simp only [Offsets.from_pdb_slice, Offsets.fromPdbStructs, Offsets.reqStruct, Offsets.reqField, hsym, hLIST, hKPROC,
        hEPROC, hETHR, hKTHR, hTEB, hMMVAD, hMMVF, hfB, hfAL, hfDTB, hfPID, hfNAME, hfPEB,
        hfSEC, hfEXIT, hfTL, hfKTEB, hfTLE, hfTPEB, hT32, hfVR,
        exceptBindOk, exceptBindErr, exceptThrowEq, exceptPureEq]
    constructor
    · intro _
      simp only [Offsets.from_pdb_slice, Offsets.fromPdbStructs, Offsets.reqStruct, Offsets.reqField, hsym, hLIST, hKPROC,
        hEPROC, hETHR, hKTHR, hTEB, hMMVAD, hMMVF, hfB, hfAL, hfDTB, hfPID, hfNAME, hfPEB,
        hfSEC, hfEXIT, hfTL, hfKTEB, hfTLE, hfTPEB, hT32, hfVR,
        exceptBindOk, exceptBindErr, exceptThrowEq, exceptPureEq]
      simp
      rcases hw : (eproc "WoW64Process").or (eproc "Wow64Process") with _ | f <;> simp [hw]
    · intro hnreq
      refine absurd ⟨fun s hs => ?_, fun p hp => ?_⟩ hnreq
      · simp only [Offsets.requiredStructs, List.mem_cons, List.not_mem_nil, or_false] at hs
        rcases hs with rfl | rfl | rfl | rfl | rfl | rfl | rfl | rfl <;>
          simp [Offsets.structOk, hLIST, hKPROC, hEPROC, hETHR, hKTHR, hTEB, hMMVAD, hMMVF]
      · simp only [Offsets.requiredFields, List.mem_cons, List.not_mem_nil, or_false] at hp
        rcases hp with rfl | rfl | rfl | rfl | rfl | rfl | rfl | rfl | rfl | rfl | rfl |
            rfl | rfl | rfl <;>
          simp [Offsets.fieldOk, hLIST, hKPROC, hEPROC, hETHR, hKTHR, hTEB, hMMVAD, hMMVF,
            hT32, hfB, hfAL, hfDTB, hfPID, hfNAME, hfPEB, hfSEC, hfEXIT, hfTL, hfKTEB,
            hfTLE, hfTPEB, hfVR]
  rcases hfT32 : teb32 "ProcessEnvironmentBlock" with _ | fT32
  · refine ⟨fun hreq => absurd (hreq.2 ("_TEB32", "ProcessEnvironmentBlock") (by decide))
        (by simp [Offsets.fieldOk, hT32, hfT32]),
      fun _ => ⟨"_TEB32" ++ "::" ++ "ProcessEnvironmentBlock" ++ " not found", ?_,
        Or.inr ⟨("_TEB32", "ProcessEnvironmentBlock"), by decide, ⟨teb32, hT32, hfT32⟩, rfl⟩⟩⟩
    simp only [Offsets.from_pdb_slice, Offsets.fromPdbStructs, Offsets.reqStruct, Offsets.reqField, hsym, hLIST, hKPROC,
      hEPROC, hETHR, hKTHR, hTEB, hMMVAD, hMMVF, hfB, hfAL, hfDTB, hfPID, hfNAME, hfPEB,
      hfSEC, hfEXIT, hfTL, hfKTEB, hfTLE, hfTPEB, hT32, hfT32,
      exceptBindOk, exceptBindErr, exceptThrowEq, exceptMapOk, exceptMapErr]
  rcases hfVR : eproc "VadRoot" with _ | fVR
  · refine ⟨fun hreq => absurd (hreq.2 ("_EPROCESS", "VadRoot") (by decide))
        (by simp [Offsets.fieldOk, hEPROC, hfVR]),
      fun _ => ⟨"_EPROCESS" ++ "::" ++ "VadRoot" ++ " not found", ?_,
        Or.inr ⟨("_EPROCESS", "VadRoot"), by decide, ⟨eproc, hEPROC, hfVR⟩, rfl⟩⟩⟩
    simp only [Offsets.from_pdb_slice, Offsets.fromPdbStructs, Offsets.reqStruct, Offsets.reqField, hsym, hLIST, hKPROC,
      hEPROC, hETHR, hKTHR, hTEB, hMMVAD, hMMVF, hfB, hfAL, hfDTB, hfPID, hfNAME, hfPEB,
      hfSEC, hfEXIT, hfTL, hfKTEB, hfTLE, hfTPEB, hT32, hfT32, hfVR,
      exceptBindOk, exceptBindErr, exceptThrowEq, exceptMapOk, exceptMapErr]
  constructor
  · intro _
    simp only [Offsets.from_pdb_slice, Offsets.fromPdbStructs, Offsets.reqStruct, Offsets.reqField, hsym, hLIST, hKPROC,
      hEPROC, hETHR, hKTHR, hTEB, hMMVAD, hMMVF, hfB, hfAL, hfDTB, hfPID, hfNAME, hfPEB,
      hfSEC, hfEXIT, hfTL, hfKTEB, hfTLE, hfTPEB, hT32, hfT32, hfVR,
      exceptBindOk, exceptBindErr, exceptThrowEq, exceptPureEq, exceptMapOk, exceptMapErr]
    simp
    rcases hw : (eproc "WoW64Process").or (eproc "Wow64Process") with _ | f <;> simp [hw]
  · intro hnreq
    refine absurd ⟨fun s hs => ?_, fun p hp => ?_⟩ hnreq
    · simp only [Offsets.requiredStructs, List.mem_cons, List.not_mem_nil, or_false] at hs
      rcases hs with rfl | rfl | rfl | rfl | rfl | rfl | rfl | rfl <;>
        simp [Offsets.structOk, hLIST, hKPROC, hEPROC, hETHR, hKTHR, hTEB, hMMVAD, hMMVF]
    · simp only [Offsets.requiredFields, List.mem_cons, List.not_mem_nil, or_false] at hp
      rcases hp with rfl | rfl | rfl | rfl | rfl | rfl | rfl | rfl | rfl | rfl | rfl |
          rfl | rfl | rfl <;>
        simp [Offsets.fieldOk, hLIST, hKPROC, hEPROC, hETHR, hKTHR, hTEB, hMMVAD, hMMVF,
          hT32, hfT32, hfB, hfAL, hfDTB, hfPID, hfNAME, hfPEB, hfSEC, hfEXIT, hfTL,
          hfKTEB, hfTLE, hfTPEB, hfVR]

/-- Witness for C1 at a PDB view where every struct and field resolve. -/
theorem spec_C1_pdb_offset_resolution_witness :
    Offsets.cexPdb.hasSymbols = true ∧
    ((Offsets.requiredPresent Offsets.cexPdb →
      ∃ t, Offsets.from_pdb_slice Offsets.cexPdb = Except.ok t ∧
        t.phys_mem_block =
          ((Offsets.cexPdb.findSymbol "MmPhysicalMemoryBlock").or
            (Offsets.cexPdb.findSymbol "_MmPhysicalMemoryBlock")).getD 0 ∧
        (∀ est, Offsets.cexPdb.structs "_EPROCESS" = some est →
          t.eproc_wow64 =
            (((est "WoW64Process").or (est "Wow64Process")).map (·.offset)).getD 0) ∧
        (∀ mv, Offsets.cexPdb.structs "_MMVAD_SHORT" = some mv →
          t.mmvad.vad_node =
            (((mv "VadNode").or (mv "LeftChild")).map (·.offset)).getD 0 ∧
          t.mmvad.starting_vpn = ((mv "StartingVpn").map (·.offset)).getD 0 ∧
          t.mmvad.ending_vpn = ((mv "EndingVpn").map (·.offset)).getD 0 ∧
          t.mmvad.starting_vpn_high = ((mv "StartingVpnHigh").map (·.offset)).getD 0 ∧
          t.mmvad.ending_vpn_high = ((mv "EndingVpnHigh").map (·.offset)).getD 0 ∧
          t.mmvad.u = ((mv "u").map (·.offset)).getD 0) ∧
        (∀ mvf, Offsets.cexPdb.structs "_MMVAD_FLAGS" = some mvf →
          t.mmvad.protection_bit = ((mvf "Protection").map (·.bit_offset)).getD 0) ∧
        (Offsets.cexPdb.structs "_TEB32" = none → t.teb_peb_x86 = 0)) ∧
    (¬Offsets.requiredPresent Offsets.cexPdb →
      ∃ msg, Offsets.from_pdb_slice Offsets.cexPdb = Except.error ⟨ErrKind.offset, msg⟩ ∧
        Offsets.missingDiag Offsets.cexPdb msg)) :=
  ⟨rfl, spec_C1_pdb_offset_resolution Offsets.cexPdb rfl⟩

end MemflowWin32
